import Mathlib

/-!
# Verification of the hekatoncheiros-core licensing / entitlement core

Shallow embedding of the licensing and entitlement services of the
repository (`src/licensing/entitlement-service.ts`, `tier-priority.ts`,
`app-id.ts`, `platform-instance-service.ts` and the license service file),
together with theorems settling the frozen claims about them.

Modelling conventions:
* Timestamps are `Int` milliseconds since the epoch (matching the
  JavaScript `Date.getTime()` arithmetic the code performs).
* The relational store is a record of lists, one per table; SQL
  `select`/`insert`/`update` statements become list operations that mirror
  the `where` clauses and `order by` expressions of the queries.
* Cryptographic signature verification (`jose.jwtVerify`) is abstracted by
  boolean oracles carried on the token/certificate values; everything the
  code checks *after* signature verification (types, claims, tenant and
  audience binding, revocation, windows) is embedded concretely.
* Exceptions are modelled with `Except`; the TypeScript `HttpError` class
  becomes the `.http status message` constructor, and any non-`HttpError`
  exception (JOSE/crypto/runtime errors) becomes `.other message`.
-/

namespace HC

/-- JavaScript epoch-millisecond timestamps. -/
abbrev Timestamp := Int

/-- Exceptions: `HttpError(status, message)` or any non-HttpError error
carrying a message (`error instanceof Error ? error.message : ...`). -/
inductive Exc where
  | http (status : Nat) (message : String)
  | other (message : String)
deriving DecidableEq, Repr

/-- The message of a thrown value, as read by
`error instanceof Error ? error.message : "..."` (both model constructors
carry an `Error`-style message). -/
def Exc.message : Exc → String
  | .http _ m => m
  | .other m => m

/-! ## tier-priority.ts -/

/-- `TIER_PRIORITY` record: free 0, trial 1, standard 2, enterprise 3. -/
def TIER_PRIORITY (tier : String) : Option Int :=
  if tier = "free" then some 0
  else if tier = "trial" then some 1
  else if tier = "standard" then some 2
  else if tier = "enterprise" then some 3
  else none

/-- `getTierPriority`: `TIER_PRIORITY[tier] ?? -1`. -/
def getTierPriority (tier : String) : Int :=
  (TIER_PRIORITY tier).getD (-1)

/-! ## entitlement-service.ts: rows and validity windows -/

/-- `TenantAppEntitlement` row (limits kept as an opaque association list). -/
structure TenantAppEntitlement where
  id : String
  tenant_id : String
  app_id : String
  source : String
  tier : String
  valid_from : Timestamp
  valid_to : Timestamp
  limits : List (String × String)
  status : String
  created_at : Timestamp
  updated_at : Timestamp
deriving DecidableEq, Repr

/-- `ResolvedEntitlement` projection (`toResolved`). -/
structure ResolvedEntitlement where
  entitlement_id : String
  tenant_id : String
  app_id : String
  source : String
  tier : String
  valid_from : Timestamp
  valid_to : Timestamp
  limits : List (String × String)
deriving DecidableEq, Repr

/-- `ValidityOptions` (both fields in seconds, as configured). -/
structure ValidityOptions where
  clockSkewSeconds : Int
  softGraceSeconds : Int
deriving DecidableEq, Repr

/-- `toResolved`. -/
def toResolved (e : TenantAppEntitlement) : ResolvedEntitlement :=
  { entitlement_id := e.id
    tenant_id := e.tenant_id
    app_id := e.app_id
    source := e.source
    tier := e.tier
    valid_from := e.valid_from
    valid_to := e.valid_to
    limits := e.limits }

inductive Validity where
  | strict
  | soft
  | invalid
deriving DecidableEq, Repr

/-- `evaluateValidityWindow`: status must be active; strict window is
`valid_from ≤ now + skew ∧ now − skew < valid_to`, soft the same with the
soft-grace tolerance. -/
def evaluateValidityWindow (e : TenantAppEntitlement) (now : Timestamp)
    (options : ValidityOptions) : Validity :=
  if e.status ≠ "active" then .invalid
  else
    let strictSkewMs := options.clockSkewSeconds * 1000
    let softSkewMs := options.softGraceSeconds * 1000
    if e.valid_from ≤ now + strictSkewMs ∧ now - strictSkewMs < e.valid_to then .strict
    else if e.valid_from ≤ now + softSkewMs ∧ now - softSkewMs < e.valid_to then .soft
    else .invalid

/-! ## entitlement-service.ts: validateTierValue

The guard is translated verbatim: it fires only when the tier is **not**
in `knownTiers` **and** `getTierPriority(tier) !== -1`. -/

def knownTiers : List String := ["free", "trial", "standard", "enterprise"]

/-- `validateTierValue` translated verbatim from the source. -/
def validateTierValue (tier : String) : Except Exc Unit :=
  if ¬ knownTiers.contains tier ∧ getTierPriority tier ≠ -1 then
    .error (.http 400 ("Invalid tier value: " ++ tier))
  else
    .ok ()

/-! ## entitlement-service.ts: best-entitlement query

`findBestEntitlement` issues a SQL query filtering on tenant, app,
`status = 'active'` and the strict/soft window, ordered by
`SOURCE_CASE_SQL desc, TIER_CASE_SQL desc, valid_to desc, created_at desc,
id desc` with `limit 1`. -/

/-- `SOURCE_CASE_SQL`: OFFLINE 1, ONLINE 0, else -1. -/
def sourceCaseSql (source : String) : Int :=
  if source = "OFFLINE" then 1 else if source = "ONLINE" then 0 else -1

/-- `TIER_CASE_SQL`: enterprise 3, standard 2, trial 1, free 0, else -1. -/
def tierCaseSql (tier : String) : Int :=
  if tier = "enterprise" then 3
  else if tier = "standard" then 2
  else if tier = "trial" then 1
  else if tier = "free" then 0
  else -1

/-- The `where` clause of `findBestEntitlement`'s query. -/
def entMatches (tenantId appId : String) (now skewSeconds : Int)
    (e : TenantAppEntitlement) : Bool :=
  e.tenant_id = tenantId ∧ e.app_id = appId ∧ e.status = "active" ∧
    e.valid_from ≤ now + skewSeconds * 1000 ∧ e.valid_to > now - skewSeconds * 1000

/-- `a` sorts strictly before `b` under the query's `order by ... desc`
chain (source rank, tier rank, valid_to, created_at, id — all descending). -/
def entBefore (a b : TenantAppEntitlement) : Bool :=
  if sourceCaseSql a.source ≠ sourceCaseSql b.source then
    sourceCaseSql a.source > sourceCaseSql b.source
  else if tierCaseSql a.tier ≠ tierCaseSql b.tier then
    tierCaseSql a.tier > tierCaseSql b.tier
  else if a.valid_to ≠ b.valid_to then a.valid_to > b.valid_to
  else if a.created_at ≠ b.created_at then a.created_at > b.created_at
  else a.id > b.id

/-- `order by ... limit 1`: first row of the ordered result set. -/
def pickBest : List TenantAppEntitlement → Option TenantAppEntitlement
  | [] => none
  | e :: rest => some (rest.foldl (fun best c => if entBefore c best then c else best) e)

/-! ## remaining persistent rows -/

/-- `core.tenant_app_selection` row. -/
structure EntSelection where
  tenant_id : String
  app_id : String
  selected_entitlement_id : String
deriving DecidableEq, Repr

/-- `core.offline_license_tokens` row (audit trail; the jsonb claims
snapshot is kept as an opaque string). -/
structure OfflineTokenRecord where
  id : String
  tenant_id : String
  app_id : String
  kid : String
  token_hash : String
  verification_result : String
deriving DecidableEq, Repr

/-- License status values. -/
inductive LicenseStatus where
  | active
  | invalid
  | expired
  | revoked
  | disabled
deriving DecidableEq, Repr

inductive LicenseMode where
  | portable
  | instance_bound
deriving DecidableEq, Repr

/-! ### License-side JWS material (abstracted crypto)

A JWS is modelled as its decoded payload plus a boolean oracle standing
for `jose.jwtVerify`'s signature / issuer / clock checks. -/

/-- Author-certificate payload, after `jwtVerify` against the root JWKS. -/
structure CertPayload where
  typ : Option String
  sub : Option String
  /-- `payload.jwks.keys`; `none` models a missing/ill-shaped `jwks`. -/
  jwksKeys : Option (List String)
deriving DecidableEq, Repr

/-- The `aud` JWT claim: string, array or absent (jose's `JWTPayload.aud`). -/
inductive AudClaim where
  | str (s : String)
  | arr (l : List String)
  | missing
deriving DecidableEq, Repr

/-- `toArray` from the license service. -/
def toArray : AudClaim → List String
  | .str s => [s]
  | .arr l => l
  | .missing => []

/-- `subject` claim of a license assertion; `none` fields model absent or
non-string JSON values. -/
structure LicSubject where
  scope_type : Option String
  tenant_id : Option String
deriving DecidableEq, Repr

/-- License-assertion payload. `nbf`/`exp` are epoch seconds when present
as numbers. -/
structure LicPayload where
  typ : Option String
  iss : Option String
  subject : LicSubject
  app_app_id : Option String
  jti : Option String
  license_mode : Option String
  aud : AudClaim
  nbf : Option Int
  exp : Option Int
deriving DecidableEq, Repr

/-- A signed author certificate: its payload plus the outcome of
`jwtVerify(author_cert_jws, rootJwks, issuer "hc-author-registry")`. -/
structure CertMaterial where
  sigOkRoot : Bool
  payload : CertPayload
deriving DecidableEq, Repr

/-- A signed license assertion: payload, protected-header `kid`, and the
outcome of `jwtVerify(license_jws, authorJwks)` as a function of the
embedded author key set. -/
structure LicenseJws where
  sigOkWith : List String → Bool
  payload : LicPayload
  headerKid : Option String

/-- `core.tenant_licenses` row. -/
structure TenantLicenseRecord where
  id : String
  tenant_id : String
  author_id : String
  app_id : String
  jti : String
  license_mode : LicenseMode
  audience : List String
  license_jws : LicenseJws
  author_cert_jws : Option CertMaterial
  author_kid : Option String
  status : LicenseStatus
  valid_from : Option Timestamp
  valid_to : Option Timestamp
  created_at : Timestamp
  updated_at : Timestamp

/-- `core.tenant_app_license_selection` row. -/
structure LicSelection where
  tenant_id : String
  app_id : String
  license_jti : String
deriving DecidableEq, Repr

/-- `core.oauth_connections` row. -/
structure OAuthConnection where
  tenant_id : String
  issuer_url : String
  app_id : Option String
  client_id : String
  client_secret_enc : Option String
  created_at : Timestamp
deriving DecidableEq, Repr

/-- In-memory `OAuthState` entry of the process-local flow-state map. -/
structure OAuthState where
  tenantId : String
  issuerUrl : String
  appId : String
  licenseMode : LicenseMode
  codeVerifier : String
  tokenEndpoint : String
  issueEndpoint : String
  autoSelect : Bool
  createdAt : Timestamp
deriving DecidableEq, Repr

/-- The shared mutable substrate: the relational store's licensing tables,
the process-local OAuth flow-state map, the lazily provisioned platform
instance id, and a counter standing in for `gen_random_uuid`/`randomUUID`
draws. -/
structure DState where
  entitlements : List TenantAppEntitlement
  entSelections : List EntSelection
  licenses : List TenantLicenseRecord
  licSelections : List LicSelection
  offlineRecords : List OfflineTokenRecord
  revocations : List (String × String)
  oauthConnections : List OAuthConnection
  flow : List (String × OAuthState)
  platformInstance : Option String
  nextId : Nat

/-- Fresh surrogate id (models `gen_random_uuid()` / `randomUUID()`). -/
def freshId (n : Nat) : String := "uuid-" ++ toString n

/-! ## platform-instance-service.ts -/

/-- `ensurePlatformInstanceId`: cached read, or create-once-and-cache. -/
def ensurePlatformInstanceId (st : DState) : String × DState :=
  match st.platformInstance with
  | some iid => (iid, st)
  | none =>
      let iid := freshId st.nextId
      (iid, { st with platformInstance := some iid, nextId := st.nextId + 1 })

/-- `getPlatformInstanceId`. -/
def getPlatformInstanceId (st : DState) : String × DState :=
  ensurePlatformInstanceId st

/-- The pure audience-id derivation inside `getPlatformInstanceAudienceId`:
prepend `hcpi_` unless the stored id already starts with it. -/
def audienceIdOf (instanceId : String) : String :=
  if "hcpi_".data.isPrefixOf instanceId.data then instanceId else "hcpi_" ++ instanceId

/-- `getPlatformInstanceAudienceId`. -/
def getPlatformInstanceAudienceId (st : DState) : String × DState :=
  let (iid, st') := getPlatformInstanceId st
  (audienceIdOf iid, st')

/-! ## entitlement-service.ts: queries and resolution -/

/-- `findBestEntitlement` against a store. -/
def findBestEntitlement (st : DState) (tenantId appId : String)
    (now skewSeconds : Int) : Option TenantAppEntitlement :=
  pickBest (st.entitlements.filter (entMatches tenantId appId now skewSeconds))

/-- `readSelectedEntitlement`: join `tenant_app_selection` with
`tenant_app_entitlements` on the selected id, `limit 1`. -/
def readSelectedEntitlement (st : DState) (tenantId appId : String) :
    Option TenantAppEntitlement :=
  match st.entSelections.find? (fun s => s.tenant_id = tenantId ∧ s.app_id = appId) with
  | none => none
  | some s => st.entitlements.find? (fun e => e.id = s.selected_entitlement_id)

/-- Result of `resolveEntitlement`, with the emitted `warnSoftClockSkew`
signal made explicit. -/
structure ResolveOutcome where
  result : Option ResolvedEntitlement
  softWarning : Bool
deriving DecidableEq, Repr

/-- The automatic part of `resolveEntitlement` (after the selection
override falls through): best strict-window match, else best soft-window
match with a warning, else none. -/
def autoResolve (st : DState) (tenantId appId : String) (now : Timestamp)
    (options : ValidityOptions) : ResolveOutcome :=
  match findBestEntitlement st tenantId appId now options.clockSkewSeconds with
  | some strict => { result := some (toResolved strict), softWarning := false }
  | none =>
      match findBestEntitlement st tenantId appId now options.softGraceSeconds with
      | some soft => { result := some (toResolved soft), softWarning := true }
      | none => { result := none, softWarning := false }

/-- `resolveEntitlement`: selection override first (strict → return, soft →
warn and return, invalid → fall through), then automatic resolution. -/
def resolveEntitlement (st : DState) (tenantId appId : String) (now : Timestamp)
    (options : ValidityOptions) : ResolveOutcome :=
  match readSelectedEntitlement st tenantId appId with
  | some selected =>
      match evaluateValidityWindow selected now options with
      | .strict => { result := some (toResolved selected), softWarning := false }
      | .soft => { result := some (toResolved selected), softWarning := true }
      | .invalid => autoResolve st tenantId appId now options
  | none => autoResolve st tenantId appId now options

/-! ## entitlement-service.ts: ingestion -/

/-- Configuration consumed by the licensing core. The offline key ring is
the JSON-parsed `OFFLINE_LICENSE_PUBLIC_KEYS_JSON` object (kid → PEM). -/
structure Config where
  clockSkewSeconds : Int
  softGraceSeconds : Int
  offlineKeys : List (String × String)
  rootJwksOk : Bool
  dcrKeyOk : Bool

/-- `defaultValidity` derived from the loaded config. -/
def defaultValidity (cfg : Config) : ValidityOptions :=
  { clockSkewSeconds := cfg.clockSkewSeconds, softGraceSeconds := cfg.softGraceSeconds }

/-- `isString`: `value.trim().length > 0`, i.e. the string contains at
least one non-whitespace character. -/
def isStringy (s : String) : Bool := s.data.any (fun c => ¬ c.isWhitespace)

/-- `parseOfflineKeyRing`: keeps only entries whose value is a non-blank
string. -/
def parseOfflineKeyRing (cfg : Config) : List (String × String) :=
  cfg.offlineKeys.filter (fun kv => isStringy kv.2)

/-- `isString` applied to a possibly-absent JSON value. -/
def optStringy : Option String → Bool
  | some s => isStringy s
  | none => false

/-- `requireClaim`: present non-blank string or `Missing claim: <key>`. -/
def requireClaim (v : Option String) (key : String) : Except Exc String :=
  match v with
  | some s => if isStringy s then .ok s else .error (.http 400 ("Missing claim: " ++ key))
  | none => .error (.http 400 ("Missing claim: " ++ key))

/-- `requireClaim` for the date-valued claims (`valid_from`/`valid_to`):
`some t` models a non-blank string claim denoting instant `t`. -/
def requireDateClaim (v : Option Timestamp) (key : String) : Except Exc Timestamp :=
  match v with
  | some t => .ok t
  | none => .error (.http 400 ("Missing claim: " ++ key))

/-- The dedup key of an entitlement row:
(tenant_id, app_id, source, tier, valid_from, valid_to). -/
def entKey (e : TenantAppEntitlement) :
    String × String × String × String × Timestamp × Timestamp :=
  (e.tenant_id, e.app_id, e.source, e.tier, e.valid_from, e.valid_to)

/-- The select-then-update-or-insert block shared verbatim (modulo the
`source` literal) by `upsertOnlineEntitlement` and `ingestOfflineToken`:
look up the row with the same (tenant, app, source, tier, valid_from,
valid_to); if found, update its limits/status/updated_at in place; else
insert a fresh active row. -/
def upsertEntitlementRow (st : DState) (tenantId appId source tier : String)
    (validFrom validTo : Timestamp) (limits : List (String × String))
    (now : Timestamp) : TenantAppEntitlement × DState :=
  match st.entitlements.find? (fun e =>
      e.tenant_id = tenantId ∧ e.app_id = appId ∧ e.source = source ∧
        e.tier = tier ∧ e.valid_from = validFrom ∧ e.valid_to = validTo) with
  | some e =>
      let updated := { e with limits := limits, status := "active", updated_at := now }
      (updated,
        { st with entitlements := st.entitlements.map (fun r =>
            if r.id = e.id then
              { r with limits := limits, status := "active", updated_at := now }
            else r) })
  | none =>
      let row : TenantAppEntitlement :=
        { id := freshId st.nextId
          tenant_id := tenantId
          app_id := appId
          source := source
          tier := tier
          valid_from := validFrom
          valid_to := validTo
          limits := limits
          status := "active"
          created_at := now
          updated_at := now }
      (row, { st with entitlements := st.entitlements ++ [row], nextId := st.nextId + 1 })

/-- Input of `upsertOnlineEntitlement` (`limits ?? {}` already applied). -/
structure UpsertOnlineParams where
  tenantId : String
  appId : String
  tier : String
  validFrom : Timestamp
  validTo : Timestamp
  limits : List (String × String)
deriving DecidableEq, Repr

/-- `upsertOnlineEntitlement`: tier validation, then the dedup upsert with
`source = 'ONLINE'`. -/
def upsertOnlineEntitlement (st : DState) (p : UpsertOnlineParams) (now : Timestamp) :
    Except Exc TenantAppEntitlement × DState :=
  match validateTierValue p.tier with
  | .error e => (.error e, st)
  | .ok () =>
      let (row, st') :=
        upsertEntitlementRow st p.tenantId p.appId "ONLINE" p.tier p.validFrom p.validTo
          p.limits now
      (.ok row, st')

/-! ### offline tokens -/

/-- Protected JWS header as read by `decodeProtectedHeader`. -/
structure JoseHeader where
  kid : Option String
  alg : Option String
deriving DecidableEq, Repr

/-- Best-effort unverified payload view (`parseUnverifiedPayload`; an
unparsable payload yields the empty object, i.e. both fields `none`). -/
structure UnverifiedClaims where
  app_id : Option String
  kid : Option String
deriving DecidableEq, Repr

/-- Verified offline-token payload. Date claims are modelled as
timestamps (`some t` = a non-blank string claim denoting instant `t`). -/
structure OfflinePayload where
  tenant_id : Option String
  app_id : Option String
  tier : Option String
  valid_from : Option Timestamp
  valid_to : Option Timestamp
  iss : Option String
  jti : Option String
  kid : Option String
  limits : List (String × String)
deriving DecidableEq, Repr

/-- A self-contained offline grant token. `header = none` models a token
on which `decodeProtectedHeader` throws. `sigOkFor pem aud` abstracts
`importSPKI` + `jwtVerify(token, key, audience, clockTolerance)`
succeeding with that PEM and expected audience. -/
structure OfflineToken where
  header : Option JoseHeader
  unverified : UnverifiedClaims
  payload : OfflinePayload
  sigOkFor : String → String → Bool
  hash : String

/-- Key resolution of `ingestOfflineToken`: protected-header decode, kid
from the header (or, failing that, the unverified payload), key-ring
lookup. -/
def offlineResolveKey (cfg : Config) (token : OfflineToken) :
    Except Exc (String × String) :=
  match token.header with
  | none => .error (.other "Invalid Token or Protected Header formatting")
  | some header =>
    match (if optStringy header.kid then header.kid
           else if optStringy token.unverified.kid then token.unverified.kid
           else none) with
    | none => .error (.http 400 "Missing kid in token header/claims")
    | some kid =>
      match (parseOfflineKeyRing cfg).lookup kid with
      | none => .error (.http 400 ("Unknown kid: " ++ kid))
      | some pem => .ok (kid, pem)

/-- The required claims of a verified offline token. -/
structure OfflineClaims where
  tenantId : String
  appId : String
  tier : String
  validFrom : Timestamp
  validTo : Timestamp
  issuer : String
  jti : String
  claimKid : String
  limits : List (String × String)
deriving DecidableEq, Repr

/-- Claim extraction of `ingestOfflineToken`: the seven required claims
in source order, the kid claim fallback, the tenant isolation check and
tier validation. -/
def offlineExtractClaims (payload : OfflinePayload) (tenantId kid : String) :
    Except Exc OfflineClaims :=
  match requireClaim payload.tenant_id "tenant_id" with
  | .error e => .error e
  | .ok tokenTenantId =>
  match requireClaim payload.app_id "app_id" with
  | .error e => .error e
  | .ok appId =>
  match requireClaim payload.tier "tier" with
  | .error e => .error e
  | .ok tier =>
  match requireDateClaim payload.valid_from "valid_from" with
  | .error e => .error e
  | .ok validFrom =>
  match requireDateClaim payload.valid_to "valid_to" with
  | .error e => .error e
  | .ok validTo =>
  match requireClaim payload.iss "iss" with
  | .error e => .error e
  | .ok issuer =>
  match requireClaim payload.jti "jti" with
  | .error e => .error e
  | .ok jti =>
  if tokenTenantId ≠ tenantId then
    .error (.http 400 "tenant_id claim does not match current tenant")
  else
    match validateTierValue tier with
    | .error e => .error e
    | .ok () =>
      .ok { tenantId := tokenTenantId
            appId := appId
            tier := tier
            validFrom := validFrom
            validTo := validTo
            issuer := issuer
            jti := jti
            claimKid :=
              match payload.kid with
              | some s => if isStringy s then s else kid
              | none => kid
            limits := payload.limits }

/-- The `try` body of `ingestOfflineToken`, up to and including the
entitlement upsert, audit insert and final row read. All throws happen
before the first store write; the platform-instance cache fill is the one
state effect that can precede a throw. -/
def ingestBody (st : DState) (cfg : Config) (tenantId : String)
    (token : OfflineToken) (now : Timestamp) :
    Except Exc (TenantAppEntitlement × String) × DState :=
  match offlineResolveKey cfg token with
  | .error e => (.error e, st)
  | .ok (kid, pem) =>
    let (platformInstanceId, st1) := getPlatformInstanceId st
    if ¬ token.sigOkFor pem platformInstanceId then
      (.error (.other "signature verification failed"), st1)
    else
      match offlineExtractClaims token.payload tenantId kid with
      | .error e => (.error e, st1)
      | .ok c =>
        let provisional : TenantAppEntitlement :=
          { id := "provisional"
            tenant_id := c.tenantId
            app_id := c.appId
            source := "OFFLINE"
            tier := c.tier
            valid_from := c.validFrom
            valid_to := c.validTo
            limits := c.limits
            status := "active"
            created_at := now
            updated_at := now }
        let validity := evaluateValidityWindow provisional now (defaultValidity cfg)
        let verificationResult :=
          if validity = .strict then "ok" else "ok_with_time_warning"
        let (ent, st2) :=
          upsertEntitlementRow st1 c.tenantId c.appId "OFFLINE" c.tier c.validFrom
            c.validTo c.limits now
        let auditRow : OfflineTokenRecord :=
          { id := freshId st2.nextId
            tenant_id := c.tenantId
            app_id := c.appId
            kid := c.claimKid
            token_hash := token.hash
            verification_result := verificationResult }
        (.ok (ent, verificationResult),
          { st2 with
            offlineRecords := st2.offlineRecords ++ [auditRow]
            nextId := st2.nextId + 1 })

/-- `ingestOfflineToken`: run the body; on any failure, write a best-effort
audit record (`unknown_app`/`unknown_kid` fallbacks, `error:<message>`),
rethrow `HttpError`s unchanged and wrap anything else in the uniform
`Offline token verification failed` 400. -/
def ingestOfflineToken (st : DState) (cfg : Config) (tenantId : String)
    (token : OfflineToken) (now : Timestamp) :
    Except Exc (TenantAppEntitlement × String) × DState :=
  let fallbackAppId :=
    match token.unverified.app_id with
    | some s => if isStringy s then s else "unknown_app"
    | none => "unknown_app"
  match ingestBody st cfg tenantId token now with
  | (.ok r, st') => (.ok r, st')
  | (.error e, st') =>
      let message := e.message
      let kid :=
        match token.unverified.kid with
        | some s => if isStringy s then s else "unknown_kid"
        | none => "unknown_kid"
      let auditRow : OfflineTokenRecord :=
        { id := freshId st'.nextId
          tenant_id := tenantId
          app_id := fallbackAppId
          kid := kid
          token_hash := token.hash
          verification_result := "error:" ++ message }
      let st'' := { st' with
        offlineRecords := st'.offlineRecords ++ [auditRow]
        nextId := st'.nextId + 1 }
      match e with
      | .http s m => (.error (.http s m), st'')
      | .other _ => (.error (.http 400 "Offline token verification failed"), st'')

/-! ## app-id.ts -/

/-- A character admitted by `HC_APP_ID_PATTERN`s class `[a-z0-9_.-]`. -/
def idChar (c : Char) : Bool :=
  c.isLower || c.isDigit || c = '_' || c = '.' || c = '-'

/-- `isValidAuthorScopedAppId`: the regex
`^[a-z0-9_.-]+\/[a-z0-9_.-]+$` — exactly one slash separating two
non-empty runs of admitted characters. -/
def isValidAuthorScopedAppId (s : String) : Bool :=
  match s.data.splitOn '/' with
  | [a, b] => a.length > 0 && b.length > 0 && a.all idChar && b.all idChar
  | _ => false

/-- `assertAuthorScopedAppId`. -/
def assertAuthorScopedAppId (appId : String) : Except Exc Unit :=
  if isValidAuthorScopedAppId appId then .ok ()
  else .error (.http 400 "app_id must use <author_id>/<slug> format")

/-! ## license service: chain verification -/

/-- `ParsedLicenseClaims`. `valid_from`/`valid_to` carry `nbf`/`exp`
converted to milliseconds (the ISO rendering of `new Date(n * 1000)`). -/
structure ParsedLicenseClaims where
  author_id : String
  app_id : String
  jti : String
  license_mode : LicenseMode
  audience : List String
  tenant_id : String
  valid_from : Option Timestamp
  valid_to : Option Timestamp
  author_kid : Option String
deriving DecidableEq, Repr

/-- Input of `importLicenseMaterial` / `validateLicenseMaterial`. -/
structure ImportLicenseInput where
  tenantId : String
  license : LicenseJws
  author_cert : Option CertMaterial

/-- `isLocallyRevoked`: any of (author_id, value), (license_jti, jti) or —
when a header kid is present — (author_kid, kid) in the local revocation
table. -/
def isLocallyRevoked (revs : List (String × String)) (authorId : String)
    (authorKid : Option String) (jti : String) : Bool :=
  revs.contains ("author_id", authorId) || revs.contains ("license_jti", jti) ||
    (match authorKid with
     | some k => revs.contains ("author_kid", k)
     | none => false)

/-- `assertLicenseAudience`: portable requires the `*` wildcard; any other
mode (instance_bound) requires the local platform instance audience id. -/
def assertLicenseAudience (mode : LicenseMode) (audience : List String)
    (platformInstanceId : String) : Except Exc Unit :=
  match mode with
  | .portable =>
      if audience.contains "*" then .ok ()
      else .error (.http 400 "portable license must include aud=[*]")
  | .instance_bound =>
      if audience.contains platformInstanceId then .ok ()
      else .error
        (.http 400 "instance_bound license audience does not contain local platform instance id")

/-- `getLicenseStatus`: revoked, else invalid, else expired when a truthy
numeric `exp` (seconds) lies at or before now, else active. -/
def getLicenseStatus (exp : Option Int) (revoked invalid : Bool)
    (nowMs : Timestamp) : LicenseStatus :=
  if revoked then .revoked
  else if invalid then .invalid
  else
    match exp with
    | some e => if e ≠ 0 ∧ e * 1000 ≤ nowMs then .expired else .active
    | none => .active

/-- Successful outcome of `verifyLicenseMaterial`. -/
structure VerifiedLicense where
  claims : ParsedLicenseClaims
  status : LicenseStatus
deriving Repr, DecidableEq

/-- Certificate side of `verifyLicenseMaterial`: required cert, root key
configuration, root verification, cert typ, certificate subject (the
author id) and the embedded key set. -/
def checkAuthorCert (cfg : Config) (certOpt : Option CertMaterial) :
    Except Exc (String × List String) :=
  match certOpt with
  | none => .error (.http 400 "author_cert_jws is required")
  | some cert =>
    if ¬ cfg.rootJwksOk then
      .error (.http 500 "Invalid LICENSING_ROOT_JWKS_JSON configuration")
    else if ¬ cert.sigOkRoot then
      .error (.other "author cert signature verification failed")
    else if cert.payload.typ ≠ some "hc-author-cert" then
      .error (.http 400 "Invalid author cert typ")
    else
      match requireClaim cert.payload.sub "sub" with
      | .error e => .error e
      | .ok authorId =>
        match cert.payload.jwksKeys with
        | none => .error (.http 400 "Author cert does not contain embedded jwks.keys")
        | some keys =>
          if keys.length = 0 then
            .error (.http 400 "Author cert does not contain embedded jwks.keys")
          else .ok (authorId, keys)

/-- License-assertion signature (against the embedded author keys), typ
and issuer-matches-author checks. -/
def checkLicenseIssuer (license : LicenseJws) (authorId : String)
    (keys : List String) : Except Exc Unit :=
  if ¬ license.sigOkWith keys then
    .error (.other "license signature verification failed")
  else if license.payload.typ ≠ some "hc-license" then
    .error (.http 400 "Invalid license typ")
  else
    match requireClaim license.payload.iss "iss" with
    | .error e => .error e
    | .ok iss =>
      if iss ≠ authorId then
        .error (.http 400 "license.iss must match author cert sub")
      else .ok ()

/-- The tenant-isolation boundary: subject must declare
`scope_type = "tenant"` with a string tenant_id equal to the requesting
(route) tenant. -/
def checkLicenseSubject (subject : LicSubject) (routeTenant : String) :
    Except Exc String :=
  if subject.scope_type ≠ some "tenant" ∨ subject.tenant_id = none then
    .error (.http 400 "License subject must be tenant scoped")
  else if subject.tenant_id.getD "" ≠ routeTenant then
    .error (.http 400 "License tenant_id does not match route tenant")
  else .ok (subject.tenant_id.getD "")

/-- App binding: author-scoped shape and the author_id route check. -/
def checkLicenseApp (appIdOpt : Option String) (authorId : String) :
    Except Exc String :=
  match assertAuthorScopedAppId (appIdOpt.getD "") with
  | .error e => .error e
  | .ok () =>
    if ¬ (authorId ++ "/").data.isPrefixOf (appIdOpt.getD "").data then
      .error (.http 400 "app.app_id prefix must match license issuer author_id")
    else .ok (appIdOpt.getD "")

/-- jti and license_mode claims. -/
def checkLicenseMeta (payload : LicPayload) : Except Exc (String × LicenseMode) :=
  match requireClaim payload.jti "jti" with
  | .error e => .error e
  | .ok jti =>
    if payload.license_mode = some "portable" then .ok (jti, .portable)
    else if payload.license_mode = some "instance_bound" then .ok (jti, .instance_bound)
    else .error (.http 400 "license_mode must be portable or instance_bound")

/-- `verifyLicenseMaterial`: the staged checks above in source order,
then the audience rule against this platform's audience id, the local
revocation lookup and status derivation — read-only except for the lazy
platform-instance provisioning. -/
def verifyLicenseMaterial (st : DState) (cfg : Config) (input : ImportLicenseInput)
    (now : Timestamp) : Except Exc VerifiedLicense × DState :=
  match checkAuthorCert cfg input.author_cert with
  | .error e => (.error e, st)
  | .ok (authorId, keys) =>
    match checkLicenseIssuer input.license authorId keys with
    | .error e => (.error e, st)
    | .ok () =>
      match checkLicenseSubject input.license.payload.subject input.tenantId with
      | .error e => (.error e, st)
      | .ok tenantId =>
        match checkLicenseApp input.license.payload.app_app_id authorId with
        | .error e => (.error e, st)
        | .ok appId =>
          match checkLicenseMeta input.license.payload with
          | .error e => (.error e, st)
          | .ok (jti, mode) =>
            let (hcpi, st1) := getPlatformInstanceAudienceId st
            let audience := toArray input.license.payload.aud
            match assertLicenseAudience mode audience hcpi with
            | .error e => (.error e, st1)
            | .ok () =>
              let authorKid := input.license.headerKid
              let revoked := isLocallyRevoked st1.revocations authorId authorKid jti
              let status := getLicenseStatus input.license.payload.exp revoked false now
              (.ok
                { claims :=
                    { author_id := authorId
                      app_id := appId
                      jti := jti
                      license_mode := mode
                      audience := audience
                      tenant_id := tenantId
                      valid_from := input.license.payload.nbf.map (· * 1000)
                      valid_to := input.license.payload.exp.map (· * 1000)
                      author_kid := authorKid }
                  status := status }, st1)

/-- `LicenseValidationResult`. -/
structure LicenseValidationResult where
  valid : Bool
  chain_verified : Bool
  status : LicenseStatus
  claims : Option ParsedLicenseClaims
  errors : List String

/-- `validateLicenseMaterial`: verification without storage, catching
every failure into a structured result. -/
def validateLicenseMaterial (st : DState) (cfg : Config) (input : ImportLicenseInput)
    (now : Timestamp) : LicenseValidationResult × DState :=
  match verifyLicenseMaterial st cfg input now with
  | (.ok v, st') =>
      ({ valid := v.status = .active
         chain_verified := true
         status := v.status
         claims := some v.claims
         errors := [] }, st')
  | (.error e, st') =>
      ({ valid := false
         chain_verified := false
         status := .invalid
         claims := none
         errors := [e.message] }, st')

/-- `importLicenseMaterial`: verify, then upsert `core.tenant_licenses`
on conflict `(jti)`, updating every derived field but never the jti. -/
def importLicenseMaterial (st : DState) (cfg : Config) (input : ImportLicenseInput)
    (now : Timestamp) : Except Exc TenantLicenseRecord × DState :=
  match verifyLicenseMaterial st cfg input now with
  | (.error e, st') => (.error e, st')
  | (.ok v, st') =>
      match st'.licenses.find? (fun l => l.jti = v.claims.jti) with
      | some l =>
          let updated : TenantLicenseRecord :=
            { l with
              tenant_id := input.tenantId
              author_id := v.claims.author_id
              app_id := v.claims.app_id
              license_mode := v.claims.license_mode
              audience := v.claims.audience
              license_jws := input.license
              author_cert_jws := input.author_cert
              author_kid := v.claims.author_kid
              status := v.status
              valid_from := v.claims.valid_from
              valid_to := v.claims.valid_to
              updated_at := now }
          (.ok updated,
            { st' with licenses := st'.licenses.map (fun r =>
                if r.jti = v.claims.jti then
                  { r with
                    tenant_id := input.tenantId
                    author_id := v.claims.author_id
                    app_id := v.claims.app_id
                    license_mode := v.claims.license_mode
                    audience := v.claims.audience
                    license_jws := input.license
                    author_cert_jws := input.author_cert
                    author_kid := v.claims.author_kid
                    status := v.status
                    valid_from := v.claims.valid_from
                    valid_to := v.claims.valid_to
                    updated_at := now }
                else r) })
      | none =>
          let row : TenantLicenseRecord :=
            { id := freshId st'.nextId
              tenant_id := input.tenantId
              author_id := v.claims.author_id
              app_id := v.claims.app_id
              jti := v.claims.jti
              license_mode := v.claims.license_mode
              audience := v.claims.audience
              license_jws := input.license
              author_cert_jws := input.author_cert
              author_kid := v.claims.author_kid
              status := v.status
              valid_from := v.claims.valid_from
              valid_to := v.claims.valid_to
              created_at := now
              updated_at := now }
          (.ok row,
            { st' with licenses := st'.licenses ++ [row], nextId := st'.nextId + 1 })

/-- `selectTenantLicense`: the referenced license must exist for the
tenant/app and be active; then upsert the selection pointer. -/
def selectTenantLicense (st : DState) (tenantId appId licenseJti : String) :
    Except Exc Unit × DState :=
  match assertAuthorScopedAppId appId with
  | .error e => (.error e, st)
  | .ok () =>
    match st.licenses.find? (fun l =>
        l.tenant_id = tenantId ∧ l.app_id = appId ∧ l.jti = licenseJti) with
    | none => (.error (.http 404 "License not found for tenant/app"), st)
    | some l =>
      if l.status ≠ .active then
        (.error (.http 400 "Only active license can be selected"), st)
      else
        match st.licSelections.find? (fun s =>
            s.tenant_id = tenantId ∧ s.app_id = appId) with
        | some _ =>
            (.ok (),
              { st with licSelections := st.licSelections.map (fun s =>
                  if s.tenant_id = tenantId ∧ s.app_id = appId then
                    { s with license_jti := licenseJti }
                  else s) })
        | none =>
            (.ok (),
              { st with licSelections := st.licSelections ++
                  [{ tenant_id := tenantId, app_id := appId, license_jti := licenseJti }] })

/-! ## license service: OAuth acquisition flow -/

/-- `OAUTH_STATE_TTL_MS = 10 * 60_000`. -/
def OAUTH_STATE_TTL_MS : Int := 600000

/-- `cleanupOAuthState`: drop entries strictly older than the TTL. -/
def cleanupOAuthState (flow : List (String × OAuthState)) (now : Timestamp) :
    List (String × OAuthState) :=
  flow.filter (fun kv => ¬ (now - kv.2.createdAt > OAUTH_STATE_TTL_MS))

/-- Responses of the external issuer, one field per outbound call the flow
makes (discovery, dynamic client registration, token exchange, license
issuance). Endpoints are carried post-`resolveEndpoint`. -/
structure NetOracle where
  discoveryOk : Bool
  authorizeEndpoint : String
  tokenEndpoint : String
  issueEndpoint : String
  registerEndpoint : String
  dcrOk : Bool
  dcrClientId : String
  dcrClientSecret : Option String
  tokenOk : Bool
  accessToken : String
  issueOk : Bool
  issueLicense : Option LicenseJws
  issueCert : Option CertMaterial

/-- The `where tenant_id = $1 and issuer_url = $2 and (app_id = $3 or
app_id is null)` filter of `getOAuthConnection`. -/
def connCandidate (tenantId issuerUrl appId : String) (c : OAuthConnection) : Bool :=
  c.tenant_id = tenantId ∧ c.issuer_url = issuerUrl ∧
    (c.app_id = some appId ∨ c.app_id = none)

/-- `order by app_id nulls last, created_at desc`: among rows matching the
filter (all non-null app_ids equal), non-null app before null, then the
most recently created. -/
def connBefore (a b : OAuthConnection) : Bool :=
  if a.app_id.isSome ≠ b.app_id.isSome then a.app_id.isSome
  else a.created_at > b.created_at

/-- `getOAuthConnection`: filtered, ordered, `limit 1`. -/
def getOAuthConnection (st : DState) (tenantId issuerUrl appId : String) :
    Option (String × Option String) :=
  match st.oauthConnections.filter (connCandidate tenantId issuerUrl appId) with
  | [] => none
  | c :: rest =>
      let best := rest.foldl (fun acc x => if connBefore x acc then x else acc) c
      some (best.client_id, best.client_secret_enc)

/-- `upsertOAuthConnection`: insert, `on conflict (issuer_url, client_id)`
update tenant_id / app_id / client_secret_enc. -/
def upsertOAuthConnection (st : DState) (tenantId issuerUrl appId clientId : String)
    (clientSecret : Option String) (now : Timestamp) : DState :=
  match st.oauthConnections.find? (fun c =>
      c.issuer_url = issuerUrl ∧ c.client_id = clientId) with
  | some _ =>
      { st with oauthConnections := st.oauthConnections.map (fun c =>
          if c.issuer_url = issuerUrl ∧ c.client_id = clientId then
            { c with
              tenant_id := tenantId
              app_id := some appId
              client_secret_enc := clientSecret }
          else c) }
  | none =>
      { st with oauthConnections := st.oauthConnections ++
          [{ tenant_id := tenantId
             issuer_url := issuerUrl
             app_id := some appId
             client_id := clientId
             client_secret_enc := clientSecret
             created_at := now }] }

structure StartParams where
  tenantId : String
  issuerUrl : String
  appId : String
  licenseMode : LicenseMode
  autoSelect : Bool
deriving DecidableEq, Repr

/-- Outcome of `startLicenseOAuth`: the returned state token (on success),
whether the registration endpoint was contacted, and the resulting
store/flow state. -/
structure StartOutcome where
  result : Except Exc String
  contactedRegistration : Bool
  st : DState

/-- `startLicenseOAuth`: validate the app id, sweep expired flow state,
fetch discovery, reuse the cached client registration or perform dynamic
client registration, then store a fresh PKCE + state entry. -/
def startLicenseOAuth (st : DState) (cfg : Config) (net : NetOracle)
    (p : StartParams) (now : Timestamp) : StartOutcome :=
  match assertAuthorScopedAppId p.appId with
  | .error e => { result := .error e, contactedRegistration := false, st := st }
  | .ok () =>
    let st0 := { st with flow := cleanupOAuthState st.flow now }
    if ¬ net.discoveryOk then
      { result := .error (.http 400 "Unable to fetch issuer discovery metadata")
        contactedRegistration := false
        st := st0 }
    else
      let afterConn :
          Except Exc ((String × Option String) × DState) × Bool :=
        match getOAuthConnection st0 p.tenantId p.issuerUrl p.appId with
        | some conn => (.ok (conn, st0), false)
        | none =>
            if ¬ cfg.dcrKeyOk then
              (.error (.http 500
                "Missing LICENSING_DCR_SIGNING_PRIVATE_JWK_JSON for DCR software_statement signing"),
               false)
            else
              let (_, stA) := getPlatformInstanceAudienceId st0
              if ¬ net.dcrOk then
                (.error (.http 400 "OAuth dynamic client registration failed"), true)
              else if net.dcrClientId = "" then
                (.error (.http 400 "OAuth registration did not return client_id"), true)
              else
                let stB := upsertOAuthConnection stA p.tenantId p.issuerUrl p.appId
                  net.dcrClientId net.dcrClientSecret now
                (.ok ((net.dcrClientId, net.dcrClientSecret), stB), true)
      match afterConn with
      | (.error e, contacted) =>
          { result := .error e, contactedRegistration := contacted, st := st0 }
      | (.ok (_conn, stB), contacted) =>
          let codeVerifier := freshId stB.nextId
          let stateToken := freshId (stB.nextId + 1)
          let entry : OAuthState :=
            { tenantId := p.tenantId
              issuerUrl := p.issuerUrl
              appId := p.appId
              licenseMode := p.licenseMode
              codeVerifier := codeVerifier
              tokenEndpoint := net.tokenEndpoint
              issueEndpoint := net.issueEndpoint
              autoSelect := p.autoSelect
              createdAt := now }
          { result := .ok stateToken
            contactedRegistration := contacted
            st := { stB with
              flow := stB.flow ++ [(stateToken, entry)]
              nextId := stB.nextId + 2 } }

structure CompleteParams where
  tenantId : String
  code : String
  state : String
deriving DecidableEq, Repr

/-- The tail of `completeLicenseOAuth`, from the tenant check on (the flow
state has already been consumed). -/
def completeAfterConsume (st : DState) (cfg : Config) (net : NetOracle)
    (p : CompleteParams) (flowState : OAuthState) (now : Timestamp) :
    Except Exc (TenantLicenseRecord × Bool) × DState :=
  if flowState.tenantId ≠ p.tenantId then
    (.error (.http 400 "OAuth state tenant mismatch"), st)
  else
    match getOAuthConnection st p.tenantId flowState.issuerUrl flowState.appId with
    | none => (.error (.http 400 "OAuth connection not found"), st)
    | some _conn =>
      if ¬ net.tokenOk then
        (.error (.http 400 "OAuth token exchange failed"), st)
      else if net.accessToken = "" then
        (.error (.http 400 "OAuth token endpoint did not return access_token"), st)
      else
        let (_, st2) := getPlatformInstanceAudienceId st
        if ¬ net.issueOk then
          (.error (.http 400 "License issuance failed"), st2)
        else
          match net.issueLicense, net.issueCert with
          | some lic, some cert =>
              match importLicenseMaterial st2 cfg
                  { tenantId := p.tenantId, license := lic, author_cert := some cert }
                  now with
              | (.error e, st3) => (.error e, st3)
              | (.ok imported, st3) =>
                  if flowState.autoSelect ∧ imported.status = .active then
                    match selectTenantLicense st3 p.tenantId imported.app_id
                        imported.jti with
                    | (.error e, st4) => (.error e, st4)
                    | (.ok (), st4) => (.ok (imported, true), st4)
                  else (.ok (imported, false), st3)
          | _, _ =>
              (.error
                (.http 400 "License issue response missing license_jws/author_cert_jws"),
               st2)

/-- `completeLicenseOAuth`: sweep, single-use lookup-and-delete of the
flow state, then the tenant check and the network tail. -/
def completeLicenseOAuth (st : DState) (cfg : Config) (net : NetOracle)
    (p : CompleteParams) (now : Timestamp) :
    Except Exc (TenantLicenseRecord × Bool) × DState :=
  let st0 := { st with flow := cleanupOAuthState st.flow now }
  match st0.flow.lookup p.state with
  | none => (.error (.http 400 "Invalid oauth state"), st0)
  | some flowState =>
      let st1 := { st0 with flow := st0.flow.filter (fun kv => kv.1 ≠ p.state) }
      completeAfterConsume st1 cfg net p flowState now

/-! ## Shared concrete fixtures -/

/-- An empty store (fresh deployment). -/
def baseState : DState :=
  { entitlements := []
    entSelections := []
    licenses := []
    licSelections := []
    offlineRecords := []
    revocations := []
    oauthConnections := []
    flow := []
    platformInstance := some "hcpi_inst0"
    nextId := 0 }

/-- A store holding a given entitlement table over the empty base. -/
def entState (l : List TenantAppEntitlement) : DState :=
  { baseState with entitlements := l }

/-- Default-flavoured configuration: 10 minutes of strict skew, 12 hours
of soft grace, one offline verification key `k0`. -/
def cfg0 : Config :=
  { clockSkewSeconds := 600
    softGraceSeconds := 43200
    offlineKeys := [("k0", "pem0")]
    rootJwksOk := true
    dcrKeyOk := true }

/-! # Theorems -/

/-- C2: the chain verifier's audience check, applied to this platform's
instance audience id (the stored instance id carrying the `hcpi_` prefix),
succeeds exactly for portable mode with the `*` wildcard in the audience
or instance-bound mode with the platform audience id in the audience, and
every other combination fails with a 400 validation error. -/
theorem assertLicenseAudience_iff (mode : LicenseMode) (aud : List String)
    (iid : String) :
    (assertLicenseAudience mode aud (audienceIdOf iid) = .ok () ↔
      (mode = LicenseMode.portable ∧ "*" ∈ aud) ∨
      (mode = LicenseMode.instance_bound ∧ audienceIdOf iid ∈ aud)) ∧
    (∀ e, assertLicenseAudience mode aud (audienceIdOf iid) = .error e →
      ∃ m, e = .http 400 m) := by
  constructor
  · cases mode <;> simp [assertLicenseAudience]
  · intro e he
    cases mode <;> simp only [assertLicenseAudience] at he <;>
      split at he <;> simp_all <;> exact ⟨_, he.symm⟩

/-- C2 witness: a portable license with the wildcard audience passes the
audience check against a concrete platform instance id. -/
theorem assertLicenseAudience_iff_witness :
    assertLicenseAudience .portable ["*"] (audienceIdOf "inst1") = .ok () :=
  (assertLicenseAudience_iff .portable ["*"] "inst1").1.mpr
    (Or.inl ⟨rfl, by decide⟩)

/-- The two clauses of `validateTierValue`s guard are mutually exclusive
(`knownTiers` and `TIER_PRIORITY` have the same keys), so the guard never
fires and every tier string is accepted. -/
theorem validateTierValue_ok (tier : String) : validateTierValue tier = .ok () := by
  unfold validateTierValue
  split_ifs with h
  · exfalso
    obtain ⟨hnot, hpri⟩ := h
    apply hpri
    rw [List.elem_iff] at hnot
    simp only [knownTiers, List.mem_cons, List.not_mem_nil, or_false, not_or] at hnot
    obtain ⟨h1, h2, h3, h4⟩ := hnot
    simp [getTierPriority, TIER_PRIORITY, h1, h2, h3, h4]
  · rfl

/-- C5: the claim that unknown tiers are rejected is refuted by the code:
`validateTierValue`s guard `!knownTiers.has(tier) && getTierPriority(tier)
!== -1` is unsatisfiable (the set and the priority map have the same
keys), so every tier string — including `platinum` — passes validation and
`upsertOnlineEntitlement` creates an entitlement row for it. -/
theorem validateTierValue_never_rejects :
    (∀ tier : String, validateTierValue tier = .ok ()) ∧
    (upsertOnlineEntitlement baseState
        { tenantId := "t1", appId := "auth/app", tier := "platinum"
          validFrom := 0, validTo := 1000000, limits := [] } 0).2.entitlements.length = 1 ∧
    (∃ row, (upsertOnlineEntitlement baseState
        { tenantId := "t1", appId := "auth/app", tier := "platinum"
          validFrom := 0, validTo := 1000000, limits := [] } 0).1 = .ok row ∧
      row.tier = "platinum" ∧ row.status = "active") :=
  ⟨validateTierValue_ok, by decide, ⟨_, rfl, rfl, rfl⟩⟩

/-- Every failure of `requireClaim` is a 400 missing-claim error. -/
theorem requireClaim_error_shape (v : Option String) (k : String) (e : Exc)
    (h : requireClaim v k = .error e) : e = .http 400 ("Missing claim: " ++ k) := by
  unfold requireClaim at h
  cases v with
  | none => cases h; rfl
  | some s =>
      by_cases hs : isStringy s
      · simp [hs] at h
      · simp only [hs, Bool.false_eq_true, if_false, Except.error.injEq] at h
        exact h.symm

/-- With a parsing root configuration and a root-verified certificate,
every failure of the cert stage is a 400 validation error. -/
theorem checkAuthorCert_error_shape (cfg : Config) (cert : CertMaterial) (e : Exc)
    (hroot : cfg.rootJwksOk = true) (hsig : cert.sigOkRoot = true)
    (h : checkAuthorCert cfg (some cert) = .error e) : ∃ m, e = .http 400 m := by
  unfold checkAuthorCert at h
  dsimp only at h
  rw [if_neg (by simp [hroot]), if_neg (by simp [hsig])] at h
  split_ifs at h with h1
  · cases h; exact ⟨_, rfl⟩
  rcases hs : requireClaim cert.payload.sub "sub" with e' | aid
  · rw [hs] at h
    cases h
    exact ⟨_, requireClaim_error_shape _ _ _ hs⟩
  rw [hs] at h
  rcases hk : cert.payload.jwksKeys with _ | keys
  · rw [hk] at h; cases h; exact ⟨_, rfl⟩
  rw [hk] at h
  dsimp only at h
  split_ifs at h with h2
  cases h
  exact ⟨_, rfl⟩

/-- The cert stage succeeds only with the certificate's embedded key set. -/
theorem checkAuthorCert_ok_keys (cfg : Config) (cert : CertMaterial)
    (aid : String) (keys : List String)
    (h : checkAuthorCert cfg (some cert) = .ok (aid, keys)) :
    cert.payload.jwksKeys = some keys := by
  unfold checkAuthorCert at h
  dsimp only at h
  split_ifs at h with h1 h2 h3
  rcases hs : requireClaim cert.payload.sub "sub" with e' | aid'
  · rw [hs] at h; exact Except.noConfusion h
  rw [hs] at h
  rcases hk : cert.payload.jwksKeys with _ | keys'
  · rw [hk] at h; exact Except.noConfusion h
  rw [hk] at h
  dsimp only at h
  split_ifs at h with h4
  cases h
  rfl

/-- With a verifying license signature, every failure of the issuer stage
is a 400 validation error. -/
theorem checkLicenseIssuer_error_shape (license : LicenseJws) (authorId : String)
    (keys : List String) (e : Exc)
    (hsig : license.sigOkWith keys = true)
    (h : checkLicenseIssuer license authorId keys = .error e) : ∃ m, e = .http 400 m := by
  unfold checkLicenseIssuer at h
  rw [if_neg (by simp [hsig])] at h
  split_ifs at h with h1
  · cases h; exact ⟨_, rfl⟩
  rcases hs : requireClaim license.payload.iss "iss" with e' | iss
  · rw [hs] at h
    cases h
    exact ⟨_, requireClaim_error_shape _ _ _ hs⟩
  rw [hs] at h
  dsimp only at h
  split_ifs at h with h2
  cases h
  exact ⟨_, rfl⟩

/-- A subject that is not tenant-scoped to the route tenant always fails
the subject stage with a 400 validation error. -/
theorem checkLicenseSubject_bad (subject : LicSubject) (routeTenant : String)
    (hbad : subject.scope_type ≠ some "tenant" ∨
      subject.tenant_id ≠ some routeTenant) :
    ∃ m, checkLicenseSubject subject routeTenant = .error (.http 400 m) := by
  unfold checkLicenseSubject
  split_ifs with h1 h2
  · exact ⟨_, rfl⟩
  · exact ⟨_, rfl⟩
  · exfalso
    rw [not_or] at h1
    obtain ⟨hscope, hpresent⟩ := h1
    rw [not_ne_iff] at hscope
    rw [not_ne_iff] at h2
    rcases hbad with hb | hb
    · exact hb hscope
    · obtain ⟨t, ht⟩ := Option.ne_none_iff_exists'.mp hpresent
      rw [ht] at h2
      simp only [Option.getD_some] at h2
      exact hb (by rw [ht, h2])

/-- C1: when both signatures of the chain verify (and the root key set
configuration parses), a license assertion whose subject is not
tenant-scoped or whose subject tenant_id differs from the requesting
tenant is rejected by `verifyLicenseMaterial` with a 400 validation
error, the store is left untouched, and `importLicenseMaterial` therefore
fails with the same class of error and writes no TenantLicense row. -/
theorem verifyLicenseMaterial_tenant_isolation (st : DState) (cfg : Config)
    (input : ImportLicenseInput) (now : Timestamp) (cert : CertMaterial)
    (hcert : input.author_cert = some cert)
    (hroot : cfg.rootJwksOk = true)
    (hsig1 : cert.sigOkRoot = true)
    (hsig2 : ∀ ks, cert.payload.jwksKeys = some ks →
      input.license.sigOkWith ks = true)
    (hbad : input.license.payload.subject.scope_type ≠ some "tenant" ∨
      input.license.payload.subject.tenant_id ≠ some input.tenantId) :
    (∃ m, verifyLicenseMaterial st cfg input now = (.error (.http 400 m), st)) ∧
    (∃ m, importLicenseMaterial st cfg input now = (.error (.http 400 m), st)) ∧
    (importLicenseMaterial st cfg input now).2.licenses = st.licenses := by
  have hv : ∃ m, verifyLicenseMaterial st cfg input now = (.error (.http 400 m), st) := by
    unfold verifyLicenseMaterial
    rcases hc : checkAuthorCert cfg input.author_cert with e | ⟨authorId, keys⟩
    · rw [hcert] at hc
      obtain ⟨m, rfl⟩ := checkAuthorCert_error_shape cfg cert e hroot hsig1 hc
      exact ⟨m, rfl⟩
    · rw [hcert] at hc
      have hkeys := checkAuthorCert_ok_keys cfg cert authorId keys hc
      dsimp only
      rcases hi : checkLicenseIssuer input.license authorId keys with e | u
      · obtain ⟨m, rfl⟩ :=
          checkLicenseIssuer_error_shape input.license authorId keys e
            (hsig2 keys hkeys) hi
        exact ⟨m, rfl⟩
      · cases u
        dsimp only
        obtain ⟨m, hm⟩ :=
          checkLicenseSubject_bad input.license.payload.subject input.tenantId hbad
        rw [hm]
        exact ⟨m, rfl⟩
  obtain ⟨m, hm⟩ := hv
  refine ⟨⟨m, hm⟩, ⟨m, ?_⟩, ?_⟩ <;> unfold importLicenseMaterial <;> rw [hm]

/-- Fixture: a root-verified author certificate for author `auth`. -/
def c1Cert : CertMaterial :=
  { sigOkRoot := true
    payload :=
      { typ := some "hc-author-cert"
        sub := some "auth"
        jwksKeys := some ["key1"] } }

/-- Fixture: a validly signed license assertion whose subject names
tenant `other`, imported on behalf of tenant `t1`. -/
def c1Input : ImportLicenseInput :=
  { tenantId := "t1"
    license :=
      { sigOkWith := fun _ => true
        payload :=
          { typ := some "hc-license"
            iss := some "auth"
            subject := { scope_type := some "tenant", tenant_id := some "other" }
            app_app_id := some "auth/app"
            jti := some "j1"
            license_mode := some "portable"
            aud := .arr ["*"]
            nbf := none
            exp := none }
        headerKid := none }
    author_cert := some c1Cert }

/-- C1 witness: a concrete chain with valid signatures whose subject
names tenant `other` is rejected for requesting tenant `t1` without a
store write. -/
theorem verifyLicenseMaterial_tenant_isolation_witness :
    (∃ m, verifyLicenseMaterial baseState cfg0 c1Input 0 =
      (.error (.http 400 m), baseState)) ∧
    (∃ m, importLicenseMaterial baseState cfg0 c1Input 0 =
      (.error (.http 400 m), baseState)) ∧
    (importLicenseMaterial baseState cfg0 c1Input 0).2.licenses =
      baseState.licenses :=
  verifyLicenseMaterial_tenant_isolation baseState cfg0 c1Input 0 c1Cert
    rfl rfl rfl (fun _ _ => rfl) (Or.inr (by decide))

/-- Fixture: an overridden entitlement that, at instant 10000000, is past
its strict window but inside the 12-hour soft grace window. -/
def c4Selected : TenantAppEntitlement :=
  { id := "e-sel"
    tenant_id := "t1"
    app_id := "auth/app"
    source := "ONLINE"
    tier := "free"
    valid_from := 0
    valid_to := 9000000
    limits := []
    status := "active"
    created_at := 0
    updated_at := 0 }

/-- Fixture: a strictly valid OFFLINE enterprise entitlement that would
win automatic resolution. -/
def c4Better : TenantAppEntitlement :=
  { id := "e-best"
    tenant_id := "t1"
    app_id := "auth/app"
    source := "OFFLINE"
    tier := "enterprise"
    valid_from := 0
    valid_to := 20000000
    limits := []
    status := "active"
    created_at := 0
    updated_at := 0 }

/-- Fixture: store holding both rows and a selection override pointing at
the stale one. -/
def c4State : DState :=
  { baseState with
    entitlements := [c4Selected, c4Better]
    entSelections :=
      [{ tenant_id := "t1", app_id := "auth/app", selected_entitlement_id := "e-sel" }] }

/-- C4: when a selection override exists for (tenant, app), resolution
returns it when its window evaluates strict (no warning) or soft (with
the soft-grace warning), regardless of what other entitlements the store
holds; when it evaluates invalid, resolution falls through to the
automatic strict/soft selection instead of returning it or blocking. -/
theorem resolveEntitlement_override (st : DState) (t a : String)
    (now : Timestamp) (opts : ValidityOptions) (sel : TenantAppEntitlement)
    (hsel : readSelectedEntitlement st t a = some sel) :
    (evaluateValidityWindow sel now opts = .strict →
      resolveEntitlement st t a now opts =
        { result := some (toResolved sel), softWarning := false }) ∧
    (evaluateValidityWindow sel now opts = .soft →
      resolveEntitlement st t a now opts =
        { result := some (toResolved sel), softWarning := true }) ∧
    (evaluateValidityWindow sel now opts = .invalid →
      resolveEntitlement st t a now opts = autoResolve st t a now opts) := by
  unfold resolveEntitlement
  rw [hsel]
  refine ⟨fun h => ?_, fun h => ?_, fun h => ?_⟩ <;> simp only [h]

/-- C4 witness: a selected entitlement whose window is only soft-valid is
returned with a warning even though a strictly valid, higher-ranked
OFFLINE enterprise entitlement exists for the same (tenant, app). -/
theorem resolveEntitlement_override_witness :
    readSelectedEntitlement c4State "t1" "auth/app" = some c4Selected ∧
    evaluateValidityWindow c4Selected 10000000 (defaultValidity cfg0) = .soft ∧
    entMatches "t1" "auth/app" 10000000 (defaultValidity cfg0).clockSkewSeconds
      c4Better = true ∧
    resolveEntitlement c4State "t1" "auth/app" 10000000 (defaultValidity cfg0) =
      { result := some (toResolved c4Selected), softWarning := true } := by
  refine ⟨by decide, by decide, by decide, ?_⟩
  exact (resolveEntitlement_override c4State "t1" "auth/app" 10000000
    (defaultValidity cfg0) c4Selected (by decide)).2.1 (by decide)

/-- The spec's tier order, lowest first. -/
def specTierOrder : List String := ["free", "trial", "standard", "enterprise"]

/-- The spec's resolution precedence, written from its words: OFFLINE
before ONLINE, then higher tier (free < trial < standard < enterprise),
then later valid_to, then later created_at, then higher id. -/
def specRankHigher (a b : TenantAppEntitlement) : Bool :=
  (a.source = "OFFLINE" ∧ b.source = "ONLINE") ∨
  (a.source = b.source ∧
    (specTierOrder.indexOf a.tier > specTierOrder.indexOf b.tier ∨
      (a.tier = b.tier ∧
        (a.valid_to > b.valid_to ∨
          (a.valid_to = b.valid_to ∧
            (a.created_at > b.created_at ∨
              (a.created_at = b.created_at ∧ a.id > b.id)))))))

/-- On the four known tiers, the SQL tier case expression agrees with the
spec's tier order index. -/
theorem tierCaseSql_eq_indexOf (t : String) (ht : t ∈ specTierOrder) :
    tierCaseSql t = (specTierOrder.indexOf t : Int) := by
  simp only [specTierOrder, List.mem_cons, List.not_mem_nil, or_false] at ht
  rcases ht with rfl | rfl | rfl | rfl <;> decide

/-- The spec's precedence coincides with the SQL `order by` comparison:
a spec-higher entitlement sorts strictly before the other one and never
after it. -/
theorem specRankHigher_entBefore (a b : TenantAppEntitlement)
    (hta : a.tier ∈ specTierOrder) (htb : b.tier ∈ specTierOrder)
    (h : specRankHigher a b = true) :
    entBefore a b = true ∧ entBefore b a = false := by
  have hca := tierCaseSql_eq_indexOf a.tier hta
  have hcb := tierCaseSql_eq_indexOf b.tier htb
  simp only [specRankHigher, decide_eq_true_eq] at h
  rcases h with ⟨hsa, hsb⟩ | ⟨hs, hrest⟩
  · constructor <;> simp [entBefore, sourceCaseSql, hsa, hsb]
  · have hss : sourceCaseSql a.source = sourceCaseSql b.source := by rw [hs]
    rcases hrest with htier | ⟨hteq, hrest2⟩
    · have hgt : tierCaseSql a.tier > tierCaseSql b.tier := by
        rw [hca, hcb]
        exact_mod_cast htier
      refine ⟨?_, ?_⟩
      · unfold entBefore
        rw [if_neg (by simp [hss]), if_pos (ne_of_gt hgt)]
        exact decide_eq_true hgt
      · unfold entBefore
        rw [if_neg (by simp [hss]), if_pos (Ne.symm (ne_of_gt hgt))]
        exact decide_eq_false (lt_asymm hgt)
    · have htc : tierCaseSql a.tier = tierCaseSql b.tier := by rw [hteq]
      rcases hrest2 with hvt | ⟨hvteq, hrest3⟩
      · refine ⟨?_, ?_⟩
        · unfold entBefore
          rw [if_neg (by simp [hss]), if_neg (by simp [htc]),
            if_pos (ne_of_gt hvt)]
          exact decide_eq_true hvt
        · unfold entBefore
          rw [if_neg (by simp [hss]), if_neg (by simp [htc]),
            if_pos (Ne.symm (ne_of_gt hvt))]
          exact decide_eq_false (lt_asymm hvt)
      · rcases hrest3 with hct | ⟨hcteq, hid⟩
        · refine ⟨?_, ?_⟩
          · unfold entBefore
            rw [if_neg (by simp [hss]), if_neg (by simp [htc]),
              if_neg (by simp [hvteq]), if_pos (ne_of_gt hct)]
            exact decide_eq_true hct
          · unfold entBefore
            rw [if_neg (by simp [hss]), if_neg (by simp [htc]),
              if_neg (by simp [hvteq]), if_pos (Ne.symm (ne_of_gt hct))]
            exact decide_eq_false (lt_asymm hct)
        · refine ⟨?_, ?_⟩
          · unfold entBefore
            rw [if_neg (by simp [hss]), if_neg (by simp [htc]),
              if_neg (by simp [hvteq]), if_neg (by simp [hcteq])]
            exact decide_eq_true hid
          · unfold entBefore
            rw [if_neg (by simp [hss]), if_neg (by simp [htc]),
              if_neg (by simp [hvteq]), if_neg (by simp [hcteq])]
            exact decide_eq_false (lt_asymm hid)

/-- C3: for two active entitlements of the same (tenant, app), both
inside the strict window at `now` and with known sources and tiers, if
`a` ranks higher than `b` under the spec's total precedence (OFFLINE
before ONLINE, then higher tier, then later valid_to, then later
created_at, then higher id) then `resolveEntitlement` with no selection
override returns `a` without a soft warning, whichever order the store
holds the two rows in. -/
theorem resolveEntitlement_precedence (a b : TenantAppEntitlement)
    (t app : String) (now : Timestamp) (opts : ValidityOptions)
    (hma : entMatches t app now opts.clockSkewSeconds a = true)
    (hmb : entMatches t app now opts.clockSkewSeconds b = true)
    (hta : a.tier ∈ specTierOrder) (htb : b.tier ∈ specTierOrder)
    (hrank : specRankHigher a b = true) :
    resolveEntitlement (entState [a, b]) t app now opts =
      { result := some (toResolved a), softWarning := false } ∧
    resolveEntitlement (entState [b, a]) t app now opts =
      { result := some (toResolved a), softWarning := false } := by
  obtain ⟨hab, hba⟩ := specRankHigher_entBefore a b hta htb hrank
  constructor <;>
    simp [resolveEntitlement, readSelectedEntitlement, entState, baseState,
      autoResolve, findBestEntitlement, List.filter, hma, hmb, pickBest,
      hab, hba]

/-- Fixture: the spec scenario's OFFLINE free-tier entitlement. -/
def c3Offline : TenantAppEntitlement :=
  { id := "e-b"
    tenant_id := "t1"
    app_id := "auth/app"
    source := "OFFLINE"
    tier := "free"
    valid_from := 0
    valid_to := 20000000
    limits := []
    status := "active"
    created_at := 0
    updated_at := 0 }

/-- Fixture: the spec scenario's ONLINE standard-tier entitlement over
the same window. -/
def c3Online : TenantAppEntitlement :=
  { id := "e-a"
    tenant_id := "t1"
    app_id := "auth/app"
    source := "ONLINE"
    tier := "standard"
    valid_from := 0
    valid_to := 20000000
    limits := []
    status := "active"
    created_at := 0
    updated_at := 0 }

/-- C3 witness: the spec's concrete scenario — an OFFLINE free-tier grant
beats an ONLINE standard-tier grant over the same window. -/
theorem resolveEntitlement_precedence_witness :
    specRankHigher c3Offline c3Online = true ∧
    resolveEntitlement (entState [c3Online, c3Offline]) "t1" "auth/app"
      5000000 (defaultValidity cfg0) =
      { result := some (toResolved c3Offline), softWarning := false } := by
  refine ⟨by decide, ?_⟩
  exact (resolveEntitlement_precedence c3Offline c3Online "t1" "auth/app"
    5000000 (defaultValidity cfg0) (by decide) (by decide) (by decide)
    (by decide) (by decide)).2

/-- The lazy platform-instance fill touches no table. -/
theorem ensurePlatformInstanceId_tables (st : DState) :
    (ensurePlatformInstanceId st).2.entitlements = st.entitlements ∧
    (ensurePlatformInstanceId st).2.offlineRecords = st.offlineRecords := by
  unfold ensurePlatformInstanceId
  cases st.platformInstance <;> simp

/-- The dedup upsert leaves the audit table alone. -/
theorem upsertEntitlementRow_offlineRecords (st : DState) (a b c d : String)
    (vf vt : Timestamp) (lim : List (String × String)) (now : Timestamp) :
    (upsertEntitlementRow st a b c d vf vt lim now).2.offlineRecords =
      st.offlineRecords := by
  unfold upsertEntitlementRow
  split <;> rfl

/-- A failing ingest body leaves both the entitlement table and the audit
table untouched. -/
theorem ingestBody_error_tables (st : DState) (cfg : Config) (tenantId : String)
    (token : OfflineToken) (now : Timestamp) (e : Exc) (stE : DState)
    (h : ingestBody st cfg tenantId token now = (.error e, stE)) :
    stE.entitlements = st.entitlements ∧ stE.offlineRecords = st.offlineRecords := by
  have hens := ensurePlatformInstanceId_tables st
  unfold ingestBody at h
  rcases hk : offlineResolveKey cfg token with e' | ⟨kid, pem⟩
  · rw [hk] at h
    dsimp only at h
    cases h
    exact ⟨rfl, rfl⟩
  · rw [hk] at h
    dsimp only at h
    rcases hg : getPlatformInstanceId st with ⟨pid, st1⟩
    rw [hg] at h
    unfold getPlatformInstanceId at hg
    rw [hg] at hens
    dsimp only at h hens
    by_cases hsig : token.sigOkFor pem pid = true
    · rw [if_neg (not_not_intro hsig)] at h
      rcases hx : offlineExtractClaims token.payload tenantId kid with e' | c
      · rw [hx] at h
        dsimp only at h
        cases h
        exact hens
      · rw [hx] at h
        dsimp only at h
        simp at h
    · rw [if_pos hsig] at h
      cases h
      exact hens

/-- A successful ingest body appends exactly one audit record. -/
theorem ingestBody_ok_records (st : DState) (cfg : Config) (tenantId : String)
    (token : OfflineToken) (now : Timestamp)
    (r : TenantAppEntitlement × String) (stE : DState)
    (h : ingestBody st cfg tenantId token now = (.ok r, stE)) :
    ∃ rec, stE.offlineRecords = st.offlineRecords ++ [rec] := by
  have hens := ensurePlatformInstanceId_tables st
  unfold ingestBody at h
  rcases hk : offlineResolveKey cfg token with e' | ⟨kid, pem⟩
  · rw [hk] at h
    dsimp only at h
    simp at h
  · rw [hk] at h
    dsimp only at h
    rcases hg : getPlatformInstanceId st with ⟨pid, st1⟩
    rw [hg] at h
    unfold getPlatformInstanceId at hg
    rw [hg] at hens
    dsimp only at h hens
    by_cases hsig : token.sigOkFor pem pid = true
    · rw [if_neg (not_not_intro hsig)] at h
      rcases hx : offlineExtractClaims token.payload tenantId kid with e' | c
      · rw [hx] at h
        dsimp only at h
        simp at h
      · rw [hx] at h
        dsimp only at h
        rw [Prod.mk.injEq] at h
        obtain ⟨h1, h2⟩ := h
        subst h2
        dsimp only
        rw [upsertEntitlementRow_offlineRecords, hens.2]
        exact ⟨_, rfl⟩
    · rw [if_pos hsig] at h
      simp at h

/-- C7: every call to `ingestOfflineToken` — success or failure — appends
exactly one OfflineTokenRecord; on failure the entitlement table is
untouched, the record's verification_result is `error:<reason>`, and its
app id / kid carry the unverified-payload values when those are
recoverable strings and the `unknown_app` / `unknown_kid` fallbacks
otherwise. -/
theorem ingestOfflineToken_audit (st : DState) (cfg : Config) (tenantId : String)
    (token : OfflineToken) (now : Timestamp) :
    (∃ r, (ingestOfflineToken st cfg tenantId token now).2.offlineRecords =
        st.offlineRecords ++ [r]) ∧
    (∀ e, (ingestOfflineToken st cfg tenantId token now).1 = .error e →
      (ingestOfflineToken st cfg tenantId token now).2.entitlements = st.entitlements ∧
      ∃ m r, (ingestOfflineToken st cfg tenantId token now).2.offlineRecords =
          st.offlineRecords ++ [r] ∧
        r.verification_result = "error:" ++ m ∧
        r.tenant_id = tenantId ∧
        r.token_hash = token.hash ∧
        (optStringy token.unverified.app_id = false → r.app_id = "unknown_app") ∧
        (∀ s, token.unverified.app_id = some s → isStringy s = true → r.app_id = s) ∧
        (optStringy token.unverified.kid = false → r.kid = "unknown_kid") ∧
        (∀ s, token.unverified.kid = some s → isStringy s = true → r.kid = s)) := by
  rcases hb : ingestBody st cfg tenantId token now with ⟨res, stE⟩
  cases res with
  | ok r =>
      have hrec := ingestBody_ok_records st cfg tenantId token now r stE hb
      constructor
      · unfold ingestOfflineToken
        rw [hb]
        exact hrec
      · intro e he
        unfold ingestOfflineToken at he
        rw [hb] at he
        simp at he
  | error e0 =>
      have htab := ingestBody_error_tables st cfg tenantId token now e0 stE hb
      have happ :
          (match token.unverified.app_id with
            | some s => if isStringy s then s else "unknown_app"
            | none => "unknown_app") = "unknown_app" ∨
          ∃ s, token.unverified.app_id = some s ∧ isStringy s = true ∧
            (match token.unverified.app_id with
              | some s => if isStringy s then s else "unknown_app"
              | none => "unknown_app") = s := by
        rcases hap : token.unverified.app_id with _ | s
        · exact Or.inl rfl
        · by_cases hstr : isStringy s
          · exact Or.inr ⟨s, rfl, hstr, by simp [hstr]⟩
          · simp [hstr]
      unfold ingestOfflineToken
      rw [hb]
      dsimp only
      cases e0 with
      | http s0 m0 =>
          refine ⟨⟨_, by rw [htab.2]⟩, fun e he => ⟨htab.1, m0, _, by rw [htab.2], rfl, rfl, rfl, ?_, ?_, ?_, ?_⟩⟩
          · intro hno
            rcases hap : token.unverified.app_id with _ | s
            · rfl
            · rw [hap] at hno
              simp only [optStringy] at hno
              simp [hno]
          · intro s hs hstr
            rw [hs]
            simp [hstr]
          · intro hno
            rcases hkp : token.unverified.kid with _ | s
            · rfl
            · rw [hkp] at hno
              simp only [optStringy] at hno
              simp [hno]
          · intro s hs hstr
            rw [hs]
            simp [hstr]
      | other m0 =>
          refine ⟨⟨_, by rw [htab.2]⟩, fun e he => ⟨htab.1, m0, _, by rw [htab.2], rfl, rfl, rfl, ?_, ?_, ?_, ?_⟩⟩
          · intro hno
            rcases hap : token.unverified.app_id with _ | s
            · rfl
            · rw [hap] at hno
              simp only [optStringy] at hno
              simp [hno]
          · intro s hs hstr
            rw [hs]
            simp [hstr]
          · intro hno
            rcases hkp : token.unverified.kid with _ | s
            · rfl
            · rw [hkp] at hno
              simp only [optStringy] at hno
              simp [hno]
          · intro s hs hstr
            rw [hs]
            simp [hstr]

/-- Fixture: a structurally fine offline token whose signing key id
`k-unknown` is absent from the configured key ring. -/
def tokUnknownKid : OfflineToken :=
  { header := some { kid := some "k-unknown", alg := some "RS256" }
    unverified := { app_id := some "auth/app", kid := some "k-unknown" }
    payload :=
      { tenant_id := some "t1"
        app_id := some "auth/app"
        tier := some "free"
        valid_from := some 0
        valid_to := some 1000000
        iss := some "issuer"
        jti := some "j1"
        kid := none
        limits := [] }
    sigOkFor := fun _ _ => true
    hash := "hash-1" }

/-- C7 witness: ingesting the unknown-kid token appends exactly one audit
record with result `error:Unknown kid: k-unknown`, recovered app id and
kid from the unverified payload, and no entitlement row. -/
theorem ingestOfflineToken_audit_witness :
    (∃ r, (ingestOfflineToken baseState cfg0 "t1" tokUnknownKid 0).2.offlineRecords =
        baseState.offlineRecords ++ [r]) ∧
    ((ingestOfflineToken baseState cfg0 "t1" tokUnknownKid 0).2.entitlements =
        baseState.entitlements ∧
      ∃ m r, (ingestOfflineToken baseState cfg0 "t1" tokUnknownKid 0).2.offlineRecords =
          baseState.offlineRecords ++ [r] ∧
        r.verification_result = "error:" ++ m ∧
        r.tenant_id = "t1" ∧
        r.token_hash = tokUnknownKid.hash ∧
        (optStringy tokUnknownKid.unverified.app_id = false → r.app_id = "unknown_app") ∧
        (∀ s, tokUnknownKid.unverified.app_id = some s → isStringy s = true →
          r.app_id = s) ∧
        (optStringy tokUnknownKid.unverified.kid = false → r.kid = "unknown_kid") ∧
        (∀ s, tokUnknownKid.unverified.kid = some s → isStringy s = true →
          r.kid = s)) :=
  ⟨(ingestOfflineToken_audit baseState cfg0 "t1" tokUnknownKid 0).1,
   (ingestOfflineToken_audit baseState cfg0 "t1" tokUnknownKid 0).2
     (.http 400 "Unknown kid: k-unknown") rfl⟩

/-- C8 counterexample: the claim that every ingestion failure surfaces to
the caller as the single uniform `Offline token verification failed`
class is false — an unknown key id surfaces its specific cause
(`Unknown kid: k-unknown`) to the caller. -/
theorem ingestOfflineToken_unknown_kid_leaks :
    (ingestOfflineToken baseState cfg0 "t1" tokUnknownKid 0).1 =
      .error (.http 400 "Unknown kid: k-unknown") ∧
    "Unknown kid: k-unknown" ≠ "Offline token verification failed" := by
  constructor
  · rfl
  · decide

/-- C8 amended: failures raised as typed HTTP validation errors inside
the ingest body (missing kid, unknown kid, missing claims, tenant
mismatch) are rethrown to the caller with their specific message, while
any other failure (the cryptographic verification layer) is replaced by
the uniform 400 `Offline token verification failed`; in both cases the
precise cause is preserved in the audit record as `error:<cause>`. -/
theorem ingestOfflineToken_error_surface (st : DState) (cfg : Config)
    (tenantId : String) (token : OfflineToken) (now : Timestamp) :
    (∀ s m stE, ingestBody st cfg tenantId token now = (.error (.http s m), stE) →
      (ingestOfflineToken st cfg tenantId token now).1 = .error (.http s m) ∧
      ∃ r, (ingestOfflineToken st cfg tenantId token now).2.offlineRecords =
          stE.offlineRecords ++ [r] ∧
        r.verification_result = "error:" ++ m) ∧
    (∀ m stE, ingestBody st cfg tenantId token now = (.error (.other m), stE) →
      (ingestOfflineToken st cfg tenantId token now).1 =
        .error (.http 400 "Offline token verification failed") ∧
      ∃ r, (ingestOfflineToken st cfg tenantId token now).2.offlineRecords =
          stE.offlineRecords ++ [r] ∧
        r.verification_result = "error:" ++ m) := by
  constructor
  · intro s m stE h
    unfold ingestOfflineToken
    rw [h]
    exact ⟨rfl, ⟨_, rfl, rfl⟩⟩
  · intro m stE h
    unfold ingestOfflineToken
    rw [h]
    exact ⟨rfl, ⟨_, rfl, rfl⟩⟩

/-- C8 amended witness: for the unknown-kid token the body raises the
typed 400 `Unknown kid: k-unknown`, the caller sees exactly that message,
and the audit record preserves it as `error:Unknown kid: k-unknown`. -/
theorem ingestOfflineToken_error_surface_witness :
    (ingestOfflineToken baseState cfg0 "t1" tokUnknownKid 0).1 =
      .error (.http 400 "Unknown kid: k-unknown") ∧
    ∃ r, (ingestOfflineToken baseState cfg0 "t1" tokUnknownKid 0).2.offlineRecords =
        (ingestBody baseState cfg0 "t1" tokUnknownKid 0).2.offlineRecords ++ [r] ∧
      r.verification_result = "error:" ++ "Unknown kid: k-unknown" :=
  (ingestOfflineToken_error_surface baseState cfg0 "t1" tokUnknownKid 0).1
    400 "Unknown kid: k-unknown" (ingestBody baseState cfg0 "t1" tokUnknownKid 0).2 rfl

/-! ## Dedup-key uniqueness -/

/-- The natural-dedup-key invariant: no two rows of the entitlement table
share (tenant_id, app_id, source, tier, valid_from, valid_to). -/
def dedupKeyUnique (l : List TenantAppEntitlement) : Prop :=
  l.Pairwise (fun x y => entKey x ≠ entKey y)

/-- One entitlement-ingesting operation. -/
inductive IngestOp where
  | online (p : UpsertOnlineParams) (now : Timestamp)
  | offline (tenantId : String) (token : OfflineToken) (now : Timestamp)

/-- The store after an ingestion, success or failure. -/
def applyIngest (cfg : Config) (st : DState) : IngestOp → DState
  | .online p now => (upsertOnlineEntitlement st p now).2
  | .offline t token now => (ingestOfflineToken st cfg t token now).2

/-- The update arm of the dedup upsert never changes a row's dedup key. -/
theorem entKey_update (e r : TenantAppEntitlement)
    (lim : List (String × String)) (now : Timestamp) :
    entKey (if r.id = e.id then
      { r with limits := lim, status := "active", updated_at := now }
    else r) = entKey r := by
  split <;> rfl

/-- The dedup upsert preserves dedup-key uniqueness: the update arm keeps
all keys, and the insert arm only fires when no row carries the key. -/
theorem upsertEntitlementRow_dedup (st : DState) (tid aid src tr : String)
    (vf vt : Timestamp) (lim : List (String × String)) (now : Timestamp)
    (h : dedupKeyUnique st.entitlements) :
    dedupKeyUnique
      (upsertEntitlementRow st tid aid src tr vf vt lim now).2.entitlements := by
  unfold upsertEntitlementRow
  split
  case _ e heq =>
    dsimp only
    rw [dedupKeyUnique, List.pairwise_map]
    exact h.imp (fun hab => by rw [entKey_update, entKey_update]; exact hab)
  case _ heq =>
    dsimp only
    rw [dedupKeyUnique, List.pairwise_append]
    refine ⟨h, List.pairwise_singleton _ _, ?_⟩
    intro x hx y hy
    simp only [List.mem_singleton] at hy
    subst hy
    have hnp := List.find?_eq_none.mp heq x hx
    intro hk
    apply hnp
    unfold entKey at hk
    simp only [Prod.mk.injEq] at hk
    obtain ⟨h1, h2, h3, h4, h5, h6⟩ := hk
    simp [h1, h2, h3, h4, h5, h6]

/-- `upsertOnlineEntitlement` preserves dedup-key uniqueness. -/
theorem upsertOnlineEntitlement_dedup (st : DState) (p : UpsertOnlineParams)
    (now : Timestamp) (h : dedupKeyUnique st.entitlements) :
    dedupKeyUnique (upsertOnlineEntitlement st p now).2.entitlements := by
  unfold upsertOnlineEntitlement
  rw [validateTierValue_ok p.tier]
  dsimp only
  exact upsertEntitlementRow_dedup st p.tenantId p.appId "ONLINE" p.tier
    p.validFrom p.validTo p.limits now h

/-- The ingest body preserves dedup-key uniqueness. -/
theorem ingestBody_dedup (st : DState) (cfg : Config) (tenantId : String)
    (token : OfflineToken) (now : Timestamp)
    (h : dedupKeyUnique st.entitlements) :
    dedupKeyUnique (ingestBody st cfg tenantId token now).2.entitlements := by
  have hens := ensurePlatformInstanceId_tables st
  unfold ingestBody
  rcases hk : offlineResolveKey cfg token with e' | ⟨kid, pem⟩
  · exact h
  · dsimp only
    rcases hg : getPlatformInstanceId st with ⟨pid, st1⟩
    unfold getPlatformInstanceId at hg
    rw [hg] at hens
    dsimp only at hens
    have h1 : dedupKeyUnique st1.entitlements := by rw [hens.1]; exact h
    by_cases hsig : token.sigOkFor pem pid = true
    · rw [if_neg (not_not_intro hsig)]
      rcases hx : offlineExtractClaims token.payload tenantId kid with e' | c
      · exact h1
      · dsimp only
        exact upsertEntitlementRow_dedup st1 c.tenantId c.appId "OFFLINE" c.tier
          c.validFrom c.validTo c.limits now h1
    · rw [if_pos hsig]
      exact h1

/-- `ingestOfflineToken` preserves dedup-key uniqueness (its catch path
only appends an audit record). -/
theorem ingestOfflineToken_dedup (st : DState) (cfg : Config) (tenantId : String)
    (token : OfflineToken) (now : Timestamp)
    (h : dedupKeyUnique st.entitlements) :
    dedupKeyUnique (ingestOfflineToken st cfg tenantId token now).2.entitlements := by
  have hb := ingestBody_dedup st cfg tenantId token now h
  unfold ingestOfflineToken
  rcases hbody : ingestBody st cfg tenantId token now with ⟨res, stE⟩
  rw [hbody] at hb
  dsimp only at hb
  cases res with
  | ok r => exact hb
  | error e => cases e <;> exact hb

/-- C6: starting from a store whose entitlement table satisfies the
dedup-key invariant, any sequence of online upserts and offline-token
ingestions preserves it — at most one row per (tenant, app, source, tier,
valid_from, valid_to) — and an online upsert whose key already has a row
updates that row's limits/status/updated_at in place without changing the
number of rows. -/
theorem entitlement_dedup_invariant (cfg : Config) (st : DState)
    (ops : List IngestOp) (h : dedupKeyUnique st.entitlements) :
    dedupKeyUnique ((ops.foldl (applyIngest cfg) st).entitlements) ∧
    (∀ p now, (∃ e ∈ st.entitlements,
        entKey e = (p.tenantId, p.appId, "ONLINE", p.tier, p.validFrom, p.validTo)) →
      (upsertOnlineEntitlement st p now).2.entitlements.length =
        st.entitlements.length ∧
      ∃ e ∈ (upsertOnlineEntitlement st p now).2.entitlements,
        entKey e = (p.tenantId, p.appId, "ONLINE", p.tier, p.validFrom, p.validTo) ∧
        e.limits = p.limits ∧ e.status = "active" ∧ e.updated_at = now) := by
  constructor
  · induction ops generalizing st with
    | nil => exact h
    | cons op rest ih =>
        rw [List.foldl_cons]
        apply ih
        cases op with
        | online p now => exact upsertOnlineEntitlement_dedup st p now h
        | offline t token now => exact ingestOfflineToken_dedup st cfg t token now h
  · intro p now ⟨e, he, hkey⟩
    unfold entKey at hkey
    simp only [Prod.mk.injEq] at hkey
    obtain ⟨k1, k2, k3, k4, k5, k6⟩ := hkey
    unfold upsertOnlineEntitlement
    rw [validateTierValue_ok p.tier]
    dsimp only
    unfold upsertEntitlementRow
    have hsome : (st.entitlements.find? (fun x =>
        x.tenant_id = p.tenantId ∧ x.app_id = p.appId ∧ x.source = "ONLINE" ∧
          x.tier = p.tier ∧ x.valid_from = p.validFrom ∧
          x.valid_to = p.validTo)).isSome := by
      rw [List.find?_isSome]
      exact ⟨e, he, by simp [k1, k2, k3, k4, k5, k6]⟩
    rcases hf : st.entitlements.find? (fun x =>
        x.tenant_id = p.tenantId ∧ x.app_id = p.appId ∧ x.source = "ONLINE" ∧
          x.tier = p.tier ∧ x.valid_from = p.validFrom ∧
          x.valid_to = p.validTo) with _ | e0
    · rw [hf] at hsome
      simp at hsome
    · rw [hf]
      dsimp only
      have he0mem := List.mem_of_find?_eq_some hf
      have he0p := List.find?_some hf
      simp only [decide_eq_true_eq] at he0p
      obtain ⟨p1, p2, p3, p4, p5, p6⟩ := he0p
      refine ⟨List.length_map .., ?_⟩
      refine ⟨{ e0 with limits := p.limits, status := "active", updated_at := now },
        List.mem_map.mpr ⟨e0, he0mem, by rw [if_pos rfl]⟩, ?_, rfl, rfl, rfl⟩
      unfold entKey
      simp [p1, p2, p3, p4, p5, p6]

/-- Fixture: an existing ONLINE standard entitlement row. -/
def c6Row : TenantAppEntitlement :=
  { id := "e-1"
    tenant_id := "t1"
    app_id := "auth/app"
    source := "ONLINE"
    tier := "standard"
    valid_from := 0
    valid_to := 1000000
    limits := []
    status := "active"
    created_at := 0
    updated_at := 0 }

/-- Fixture: an upsert carrying the same dedup key as `c6Row`. -/
def c6Params : UpsertOnlineParams :=
  { tenantId := "t1"
    appId := "auth/app"
    tier := "standard"
    validFrom := 0
    validTo := 1000000
    limits := [("seats", "10")] }

/-- C6 witness: re-ingesting the same key twice keeps the invariant and
updates in place, leaving a single row. -/
theorem entitlement_dedup_invariant_witness :
    dedupKeyUnique (([IngestOp.online c6Params 5, IngestOp.online c6Params 6].foldl
      (applyIngest cfg0) (entState [c6Row])).entitlements) ∧
    ((upsertOnlineEntitlement (entState [c6Row]) c6Params 5).2.entitlements.length =
      (entState [c6Row]).entitlements.length ∧
    ∃ e ∈ (upsertOnlineEntitlement (entState [c6Row]) c6Params 5).2.entitlements,
      entKey e = (c6Params.tenantId, c6Params.appId, "ONLINE", c6Params.tier,
        c6Params.validFrom, c6Params.validTo) ∧
      e.limits = c6Params.limits ∧ e.status = "active" ∧ e.updated_at = 5) := by
  have h := entitlement_dedup_invariant cfg0 (entState [c6Row])
    [IngestOp.online c6Params 5, IngestOp.online c6Params 6]
    (by simp [dedupKeyUnique, entState, baseState])
  exact ⟨h.1, h.2 c6Params 5 (by decide)⟩

/-! ## OAuth client-registration caching -/

/-- The connection lookup only reads the connection table, so the
flow-state sweep does not affect it. -/
theorem getOAuthConnection_flow_update (st : DState)
    (f : List (String × OAuthState)) (t i a : String) :
    getOAuthConnection { st with flow := f } t i a = getOAuthConnection st t i a := rfl

/-- C9 amended: with reachable discovery and a configured DCR signing
key, `startLicenseOAuth` contacts the registration endpoint exactly when
`getOAuthConnection` finds no stored row for the calling tenant, issuer
and app — the cache is keyed per tenant, not per (issuer, app) alone. -/
theorem startLicenseOAuth_registration_cache (st : DState) (cfg : Config)
    (net : NetOracle) (p : StartParams) (now : Timestamp)
    (hval : isValidAuthorScopedAppId p.appId = true)
    (hdisc : net.discoveryOk = true)
    (hkey : cfg.dcrKeyOk = true) :
    (startLicenseOAuth st cfg net p now).contactedRegistration =
      (getOAuthConnection st p.tenantId p.issuerUrl p.appId).isNone := by
  have ha : assertAuthorScopedAppId p.appId = .ok () := by
    unfold assertAuthorScopedAppId
    rw [if_pos hval]
  unfold startLicenseOAuth
  rw [ha]
  dsimp only
  rw [if_neg (by simp [hdisc]), getOAuthConnection_flow_update]
  rcases hcn : getOAuthConnection st p.tenantId p.issuerUrl p.appId with _ | conn
  · dsimp only
    rw [if_neg (by simp [hkey])]
    rcases hga : getPlatformInstanceAudienceId
      { st with flow := cleanupOAuthState st.flow now } with ⟨aud, stA⟩
    dsimp only
    by_cases hd : net.dcrOk = true
    · rw [if_neg (not_not_intro hd)]
      by_cases hc : net.dcrClientId = ""
      · rw [if_pos hc]
        rfl
      · rw [if_neg hc]
        rfl
    · rw [if_pos hd]
      rfl
  · rfl

/-- Fixture: a cooperative external issuer for the OAuth flow. -/
def net0 : NetOracle :=
  { discoveryOk := true
    authorizeEndpoint := "https://iss/oauth/authorize"
    tokenEndpoint := "https://iss/oauth/token"
    issueEndpoint := "https://iss/v1/licenses/issue"
    registerEndpoint := "https://iss/oauth/register"
    dcrOk := true
    dcrClientId := "client-1"
    dcrClientSecret := some "secret-1"
    tokenOk := true
    accessToken := "at-1"
    issueOk := true
    issueLicense := none
    issueCert := none }

/-- Fixture: tenant tA starts the flow for (issuer, app). -/
def c9StartA : StartParams :=
  { tenantId := "tA"
    issuerUrl := "https://iss"
    appId := "auth/app"
    licenseMode := .portable
    autoSelect := false }

/-- Fixture: tenant tB starts the flow for the same issuer and app. -/
def c9StartB : StartParams :=
  { tenantId := "tB"
    issuerUrl := "https://iss"
    appId := "auth/app"
    licenseMode := .portable
    autoSelect := false }

/-- Fixture: the store after tenant tA's start call registered a client. -/
def c9St1 : DState := (startLicenseOAuth baseState cfg0 net0 c9StartA 0).st

/-- C9 counterexample: tenant tA's start stores a registration for
(issuer, app), yet tenant tB's later start for the same issuer and app
does not find it and contacts the registration endpoint again — dynamic
client registration is not once per (issuer_url, app_id) across tenants. -/
theorem startLicenseOAuth_reregisters_for_other_tenant :
    (startLicenseOAuth baseState cfg0 net0 c9StartA 0).contactedRegistration = true ∧
    (∃ c ∈ c9St1.oauthConnections,
      c.issuer_url = "https://iss" ∧ c.app_id = some "auth/app" ∧
        c.tenant_id = "tA" ∧ c.client_id = "client-1") ∧
    (startLicenseOAuth c9St1 cfg0 net0 c9StartB 1000).contactedRegistration = true := by
  refine ⟨rfl, ?_, rfl⟩
  decide

/-- C9 amended witness: tenant tA's second start finds its own cached
registration and does not re-register, while tenant tB's start does. -/
theorem startLicenseOAuth_registration_cache_witness :
    (startLicenseOAuth c9St1 cfg0 net0 c9StartA 1000).contactedRegistration =
      (getOAuthConnection c9St1 "tA" "https://iss" "auth/app").isNone ∧
    (getOAuthConnection c9St1 "tA" "https://iss" "auth/app").isNone = false ∧
    (startLicenseOAuth c9St1 cfg0 net0 c9StartB 1000).contactedRegistration =
      (getOAuthConnection c9St1 "tB" "https://iss" "auth/app").isNone ∧
    (getOAuthConnection c9St1 "tB" "https://iss" "auth/app").isNone = true :=
  ⟨startLicenseOAuth_registration_cache c9St1 cfg0 net0 c9StartA 1000 rfl rfl rfl,
   by decide,
   startLicenseOAuth_registration_cache c9St1 cfg0 net0 c9StartB 1000 rfl rfl rfl,
   by decide⟩

/-! ## Single-use OAuth flow state -/

/-- Deleting a key from the flow-state map removes it from lookup. -/
theorem lookup_filter_self (l : List (String × OAuthState)) (k : String) :
    (l.filter (fun kv => kv.1 ≠ k)).lookup k = none := by
  induction l with
  | nil => rfl
  | cons kv rest ih =>
      by_cases hk : kv.1 = k
      · rw [List.filter_cons, if_neg (by simp [hk])]
        exact ih
      · rw [List.filter_cons, if_pos (by simp [hk])]
        simp only [List.lookup]
        rw [show (k == kv.1) = false from by simp [Ne.symm hk]]
        exact ih

/-- Filtering the flow-state map preserves lookup misses. -/
theorem lookup_filter_none (l : List (String × OAuthState))
    (q : String × OAuthState → Bool) (k : String)
    (h : l.lookup k = none) : (l.filter q).lookup k = none := by
  induction l with
  | nil => rfl
  | cons kv rest ih =>
      simp only [List.lookup] at h
      rcases hk : (k == kv.1) with _ | _
      · rw [hk] at h
        simp only [List.filter_cons]
        by_cases hq : q kv
        · rw [if_pos hq]
          simp only [List.lookup, hk]
          exact ih h
        · rw [if_neg hq]
          exact ih h
      · rw [hk] at h
        cases h

/-- The lazy platform-instance fill leaves the flow-state map alone. -/
theorem ensurePlatformInstanceId_flow (st : DState) :
    (ensurePlatformInstanceId st).2.flow = st.flow := by
  unfold ensurePlatformInstanceId
  cases st.platformInstance <;> rfl

/-- The audience-id read shares the instance-fill state. -/
theorem getPlatformInstanceAudienceId_snd (st : DState) :
    (getPlatformInstanceAudienceId st).2 = (ensurePlatformInstanceId st).2 := rfl

/-- Chain verification leaves the flow-state map alone. -/
theorem verifyLicenseMaterial_flow (st : DState) (cfg : Config)
    (input : ImportLicenseInput) (now : Timestamp) :
    (verifyLicenseMaterial st cfg input now).2.flow = st.flow := by
  unfold verifyLicenseMaterial
  rcases checkAuthorCert cfg input.author_cert with e | ⟨aid, keys⟩
  · rfl
  · dsimp only
    rcases checkLicenseIssuer input.license aid keys with e | u
    · rfl
    · cases u
      dsimp only
      rcases checkLicenseSubject input.license.payload.subject input.tenantId with e | tid
      · rfl
      · dsimp only
        rcases checkLicenseApp input.license.payload.app_app_id aid with e | appId
        · rfl
        · dsimp only
          rcases checkLicenseMeta input.license.payload with e | ⟨jti, mode⟩
          · rfl
          · dsimp only
            rcases hga : getPlatformInstanceAudienceId st with ⟨aud, st1⟩
            have h1 : st1.flow = st.flow := by
              have h2 : st1 = (ensurePlatformInstanceId st).2 := by
                rw [← getPlatformInstanceAudienceId_snd, hga]
              rw [h2, ensurePlatformInstanceId_flow]
            dsimp only
            rcases assertLicenseAudience mode (toArray input.license.payload.aud) aud with
              e | u
            · exact h1
            · cases u
              exact h1

/-- License import leaves the flow-state map alone. -/
theorem importLicenseMaterial_flow (st : DState) (cfg : Config)
    (input : ImportLicenseInput) (now : Timestamp) :
    (importLicenseMaterial st cfg input now).2.flow = st.flow := by
  unfold importLicenseMaterial
  rcases hv : verifyLicenseMaterial st cfg input now with ⟨res, stV⟩
  have hflow : stV.flow = st.flow := by
    have h := verifyLicenseMaterial_flow st cfg input now
    rw [hv] at h
    exact h
  cases res with
  | error e => exact hflow
  | ok v =>
      dsimp only
      split
      · exact hflow
      · exact hflow

/-- License selection leaves the flow-state map alone. -/
theorem selectTenantLicense_flow (st : DState) (t a j : String) :
    (selectTenantLicense st t a j).2.flow = st.flow := by
  unfold selectTenantLicense
  rcases assertAuthorScopedAppId a with e | u
  · rfl
  · cases u
    dsimp only
    split
    · rfl
    · split_ifs
      · rfl
      · split <;> rfl

/-- The post-consumption tail of `completeLicenseOAuth` never re-adds a
flow-state entry. -/
theorem completeAfterConsume_flow (st : DState) (cfg : Config) (net : NetOracle)
    (p : CompleteParams) (fs : OAuthState) (now : Timestamp) :
    (completeAfterConsume st cfg net p fs now).2.flow = st.flow := by
  unfold completeAfterConsume
  by_cases h1 : fs.tenantId = p.tenantId
  · rw [if_neg (not_not_intro h1)]
    rcases getOAuthConnection st p.tenantId fs.issuerUrl fs.appId with _ | conn
    · rfl
    · dsimp only
      by_cases h2 : net.tokenOk = true
      · rw [if_neg (not_not_intro h2)]
        by_cases h3 : net.accessToken = ""
        · rw [if_pos h3]
        · rw [if_neg h3]
          rcases hga : getPlatformInstanceAudienceId st with ⟨aud, st2⟩
          have hst2 : st2.flow = st.flow := by
            have h2' : st2 = (ensurePlatformInstanceId st).2 := by
              rw [← getPlatformInstanceAudienceId_snd, hga]
            rw [h2', ensurePlatformInstanceId_flow]
          dsimp only
          by_cases h4 : net.issueOk = true
          · rw [if_neg (not_not_intro h4)]
            rcases net.issueLicense with _ | lic <;> rcases net.issueCert with _ | cert
            · exact hst2
            · exact hst2
            · exact hst2
            · dsimp only
              rcases hi : importLicenseMaterial st2 cfg
                  { tenantId := p.tenantId, license := lic, author_cert := some cert }
                  now with ⟨ires, st3⟩
              have hst3 : st3.flow = st2.flow := by
                have h := importLicenseMaterial_flow st2 cfg
                  { tenantId := p.tenantId, license := lic, author_cert := some cert } now
                rw [hi] at h
                exact h
              cases ires with
              | error e => exact hst3.trans hst2
              | ok imported =>
                  dsimp only
                  split_ifs with h5
                  · rcases hs : selectTenantLicense st3 p.tenantId imported.app_id
                        imported.jti with ⟨sres, st4⟩
                    have hst4 : st4.flow = st3.flow := by
                      have h := selectTenantLicense_flow st3 p.tenantId
                        imported.app_id imported.jti
                      rw [hs] at h
                      exact h
                    cases sres with
                    | error e => exact (hst4.trans hst3).trans hst2
                    | ok u =>
                        cases u
                        exact (hst4.trans hst3).trans hst2
                  · exact hst3.trans hst2
          · rw [if_pos h4]
            exact hst2
      · rw [if_pos h2]
  · rw [if_pos h1]

/-- C10: when a completion call finds its state token present and
unexpired, the flow-state entry is consumed before the tenant check: the
resulting map no longer holds the token whatever the outcome; a
completion from a different tenant fails with the tenant-mismatch error
yet still consumes the state; and any later completion with the same
token fails with `Invalid oauth state`. -/
theorem completeLicenseOAuth_consumes_state (st : DState) (cfg : Config)
    (net : NetOracle) (p : CompleteParams) (now : Timestamp) (fs : OAuthState)
    (hfound : (cleanupOAuthState st.flow now).lookup p.state = some fs) :
    (completeLicenseOAuth st cfg net p now).2.flow.lookup p.state = none ∧
    (fs.tenantId ≠ p.tenantId →
      (completeLicenseOAuth st cfg net p now).1 =
        .error (.http 400 "OAuth state tenant mismatch")) ∧
    (∀ cfg2 net2 now2,
      (completeLicenseOAuth (completeLicenseOAuth st cfg net p now).2 cfg2 net2
        p now2).1 = .error (.http 400 "Invalid oauth state")) := by
  have hcomp : completeLicenseOAuth st cfg net p now =
      completeAfterConsume
        { st with flow := ((cleanupOAuthState st.flow now).filter (fun kv => kv.1 ≠ p.state)) }
        cfg net p fs now := by
    unfold completeLicenseOAuth
    dsimp only
    rw [hfound]
  have hnone : (completeLicenseOAuth st cfg net p now).2.flow.lookup p.state = none := by
    rw [hcomp, completeAfterConsume_flow]
    exact lookup_filter_self _ _
  refine ⟨hnone, fun hmm => ?_, fun cfg2 net2 now2 => ?_⟩
  · rw [hcomp]
    unfold completeAfterConsume
    rw [if_pos hmm]
  · set st' := (completeLicenseOAuth st cfg net p now).2 with hst'
    unfold completeLicenseOAuth cleanupOAuthState
    dsimp only
    rw [lookup_filter_none _ _ _ hnone]

/-- Fixture: a flow-state entry started by tenant tA at instant 0. -/
def c10Flow : OAuthState :=
  { tenantId := "tA"
    issuerUrl := "https://iss"
    appId := "auth/app"
    licenseMode := .portable
    codeVerifier := "cv-1"
    tokenEndpoint := "https://iss/oauth/token"
    issueEndpoint := "https://iss/v1/licenses/issue"
    autoSelect := false
    createdAt := 0 }

/-- Fixture: the store holding that single in-flight flow. -/
def c10St : DState := { baseState with flow := [("state-1", c10Flow)] }

/-- Fixture: tenant tB tries to complete tA's flow. -/
def c10Params : CompleteParams :=
  { tenantId := "tB", code := "code-1", state := "state-1" }

/-- C10 witness: within the TTL, tenant tB's completion of tA's state
fails with the tenant-mismatch error, the token is gone from the map, and
replaying the same token fails with `Invalid oauth state`. -/
theorem completeLicenseOAuth_consumes_state_witness :
    (completeLicenseOAuth c10St cfg0 net0 c10Params 1000).2.flow.lookup "state-1" =
      none ∧
    (completeLicenseOAuth c10St cfg0 net0 c10Params 1000).1 =
      .error (.http 400 "OAuth state tenant mismatch") ∧
    (completeLicenseOAuth (completeLicenseOAuth c10St cfg0 net0 c10Params 1000).2
      cfg0 net0 c10Params 2000).1 = .error (.http 400 "Invalid oauth state") := by
  have h := completeLicenseOAuth_consumes_state c10St cfg0 net0 c10Params 1000
    c10Flow (by decide)
  exact ⟨h.1, h.2.1 (by decide), h.2.2 cfg0 net0 2000⟩

end HC
